import Mathlib

/-!
Verification of the App-Reviewer job orchestration core.

Shallow embedding of the Python sources under `backend/app/`:
* `api/schemas.py`   — enums and data records (`JobData`, `InsightResult`, ...)
* `core/job_manager.py` — job store operations (`update_status`, `set_result`, ...)
* `core/worker.py`   — the orchestrator `process_job`
* `aggregation/aggregator.py` — the pure aggregation functions
* `pipelines/issues.py` — the pure batch-merge step of the issue pipeline
* `core/cache.py`    — the in-memory fallback cache
* `api/routes.py`    — `generate_request_hash`

Machine integers are modelled as `Nat`/`Int`, Python floats as `Rat`
(`round(x, 1)` becomes an exact round-half-to-even on rationals),
timestamps (`datetime.utcnow()`) as abstract `Nat` clock values passed in
by the caller, and fallible externals (review fetch, the five LLM passes)
as explicit `Except`/`Option` inputs of the orchestrator's environment.
-/

namespace AppReviewer

/-! ### Enums (`api/schemas.py`) -/

/-- `Platform` enum: supported platforms. -/
inductive Platform
  | ios
  | android
deriving DecidableEq

/-- `JobStatus` enum: job lifecycle states
(`created`, `fetching`, `analyzing`, `aggregating`, `completed`, `failed`). -/
inductive JobStatus
  | created
  | fetching_reviews
  | analyzing_reviews
  | aggregating_results
  | completed
  | failed
deriving DecidableEq

/-- `Severity` enum. -/
inductive Severity
  | low
  | medium
  | high
deriving DecidableEq

/-- `Priority` enum. -/
inductive Priority
  | low
  | medium
  | high
deriving DecidableEq

/-- `ErrorCode` enum (the constructor is the Python member name). -/
inductive ErrorCode
  | invalid_input
  | review_fetch_failed
  | ai_timeout
  | schema_validation_failed
  | cost_limit_exceeded
deriving DecidableEq

/-- The string value of each `ErrorCode` member, as in `api/schemas.py`. -/
def ErrorCode.code : ErrorCode → String
  | .invalid_input => "ERR_INVALID_INPUT"
  | .review_fetch_failed => "ERR_REVIEW_FETCH_FAILED"
  | .ai_timeout => "ERR_AI_TIMEOUT"
  | .schema_validation_failed => "ERR_SCHEMA_VALIDATION_FAILED"
  | .cost_limit_exceeded => "ERR_COST_LIMIT_EXCEEDED"

/-! ### Decimal rendering of integers (Python `str(int)` / f-string interpolation) -/

/-- Fuel-driven helper computing the decimal digits of `n` (most significant
first), mirroring the decimal rendering Python applies inside f-strings. -/
def decDigitsAux : Nat → Nat → List Char
  | 0, _ => []
  | fuel + 1, n =>
    if n < 10 then [Nat.digitChar n]
    else decDigitsAux fuel (n / 10) ++ [Nat.digitChar (n % 10)]

/-- Decimal digits of a natural number, most significant first. -/
def decDigits (n : Nat) : List Char := decDigitsAux (n + 1) n

/-- Python `str(n)` for a non-negative integer. -/
def decRepr (n : Nat) : String := ⟨decDigits n⟩

/-- Python `str.lower()` (ASCII case folding) on the character list. -/
def pyLower (s : String) : String := ⟨s.data.map Char.toLower⟩

/-- Python `str.strip()`: drop leading and trailing whitespace. -/
def pyStrip (s : String) : String :=
  ⟨((s.data.dropWhile Char.isWhitespace).reverse.dropWhile Char.isWhitespace).reverse⟩


/-! ### Data records (`api/schemas.py`) -/

/-- `AnalysisOptions`: request options. -/
structure AnalysisOptions where
  review_limit : Nat
  locale : Option String
  analysis_version : String
deriving DecidableEq

/-- `Review`: a normalized review. -/
structure Review where
  review_id : String
  rating : Nat
  date : Nat
  locale : String
  title : Option String
  body : String
  body_cleaned : Option String
  detected_language : Option String
deriving DecidableEq

/-- `SentimentBreakdown`: the three output percentages. -/
structure SentimentBreakdown where
  positive : ℚ
  neutral : ℚ
  negative : ℚ
deriving DecidableEq

/-- `TopIssue`: an issue entry of the final report. -/
structure TopIssue where
  issue : String
  frequency : ℤ
  severity : Severity
deriving DecidableEq

/-- `FeatureRequest` entry of the final report. -/
structure FeatureRequest where
  feature : String
  count : ℤ
deriving DecidableEq

/-- `MonetizationRisk` entry of the final report. -/
structure MonetizationRisk where
  risk : String
  confidence : Severity
deriving DecidableEq

/-- `RecommendedAction` entry of the final report. -/
structure RecommendedAction where
  action : String
  priority : Priority
  expected_impact : String
deriving DecidableEq

/-- `InsightResult`: the final aggregated report. -/
structure InsightResult where
  summary : String
  sentiment_breakdown : SentimentBreakdown
  top_issues : List TopIssue
  feature_requests : List FeatureRequest
  monetization_risks : List MonetizationRisk
  recommended_actions : List RecommendedAction
  app_id : String
  platform : Platform
  reviews_analyzed : Nat
  analysis_version : String
  generated_at : Nat
deriving DecidableEq

/-- `JobData`: the mutable job record. -/
structure JobData where
  analysis_id : String
  app_url : String
  app_id : String
  platform : Platform
  options : AnalysisOptions
  request_hash : String
  status : JobStatus := .created
  progress : Nat := 0
  error : Option String := none
  error_code : Option ErrorCode := none
  reviews : List Review := []
  result : Option InsightResult := none
  created_at : Nat
  updated_at : Nat
  tokens_used : Nat := 0
deriving DecidableEq

/-! ### Job store operations (`core/job_manager.py`)

The cache round-trip `get_job`/`set_json` is modelled as state passing on
the present record; each operation takes the current record and the value
`datetime.utcnow()` would produce (`now`). -/

namespace JobManager

/-- `JobManager.create_job`: build a fresh `CREATED` record at progress 0. -/
def create_job (analysis_id app_url app_id : String) (platform : Platform)
    (options : AnalysisOptions) (request_hash : String) (now : Nat) : JobData :=
  { analysis_id := analysis_id
    app_url := app_url
    app_id := app_id
    platform := platform
    options := options
    request_hash := request_hash
    status := .created
    progress := 0
    created_at := now
    updated_at := now }

/-- `JobManager.update_status`: read-modify-write of status/progress/error.
The `if error:` truthiness test of the source makes an empty message skip
the error/error_code assignment. -/
def update_status (job : JobData) (status : JobStatus) (progress : Option Nat)
    (error : Option String) (error_code : Option ErrorCode) (now : Nat) : JobData :=
  let j := { job with status := status, updated_at := now }
  let j := match progress with
    | some p => { j with progress := p }
    | none => j
  match error with
  | some e => if e = "" then j else { j with error := some e, error_code := error_code }
  | none => j

/-- `JobManager.set_reviews`. -/
def set_reviews (job : JobData) (reviews : List Review) (now : Nat) : JobData :=
  { job with reviews := reviews, updated_at := now }

/-- `JobManager.set_result`: stores the result and forces
status `COMPLETED`, progress 100. -/
def set_result (job : JobData) (result : InsightResult) (tokens_used : Nat)
    (now : Nat) : JobData :=
  { job with result := some result, tokens_used := tokens_used,
             status := .completed, progress := 100, updated_at := now }

/-- `JobManager.fail_job`: delegates to `update_status` with status `FAILED`. -/
def fail_job (job : JobData) (error : String) (error_code : ErrorCode)
    (now : Nat) : JobData :=
  update_status job .failed none (some error) (some error_code) now

end JobManager

/-! ### Pipeline output shapes

The five passes return loosely-typed JSON objects which the aggregator
probes with `.get`-with-default access; each field the code reads is
modelled as an `Option`, with `none` for an absent key. -/

/-- The `sentiment_breakdown` sub-object of the sentiment pass output. -/
structure BreakdownIn where
  positive : Option ℚ
  neutral : Option ℚ
  negative : Option ℚ
deriving DecidableEq

/-- Sentiment pass output (the fields the aggregator reads). -/
structure SentimentOutput where
  sentiment_breakdown : Option BreakdownIn
  overall_sentiment : Option String
deriving DecidableEq

/-- One item of the issues pass output. -/
structure IssueItem where
  issue : Option String
  frequency : Option ℤ
  severity : Option String
  category : Option String
deriving DecidableEq

/-- One item of the features pass output. -/
structure FeatureItem where
  feature : Option String
  count : Option ℤ
deriving DecidableEq

/-- One item of the `risks` list of the monetization pass output. -/
structure RiskItem where
  risk : Option String
  confidence : Option String
deriving DecidableEq

/-- Monetization pass output (the fields the aggregator reads). -/
structure MonetizationOutput where
  risks : Option (List RiskItem)
  overall_risk : Option String
deriving DecidableEq

/-- One item of the actions pass output. -/
structure ActionItem where
  action : Option String
  priority : Option String
  expected_impact : Option String
deriving DecidableEq

/-! ### Python `round(x, 1)` on exact rationals -/

/-- Python `round(x)` (round-half-to-even) on an exact rational. -/
def pyRoundInt (x : ℚ) : ℤ :=
  let f := ⌊x⌋
  let r := x - (f : ℚ)
  if r < 1/2 then f
  else if 1/2 < r then f + 1
  else if f % 2 = 0 then f else f + 1

/-- Python `round(x, 1)` on an exact rational. -/
def pyRound1 (x : ℚ) : ℚ := (pyRoundInt (x * 10) : ℚ) / 10

/-! ### Aggregator (`aggregation/aggregator.py`, class `InsightAggregator`) -/

namespace InsightAggregator

/-- Python `Severity(s)` enum lookup (raising `ValueError` becomes `none`). -/
def sevParse (s : String) : Option Severity :=
  if s = "low" then some .low
  else if s = "medium" then some .medium
  else if s = "high" then some .high
  else none

/-- Python `Priority(s)` enum lookup (raising `ValueError` becomes `none`). -/
def priParse (s : String) : Option Priority :=
  if s = "low" then some .low
  else if s = "medium" then some .medium
  else if s = "high" then some .high
  else none

/-- `InsightAggregator._build_sentiment_breakdown`: defaults of 33.3,
then — only when the total is positive — proportional scaling of
positive and neutral and recomputation of negative. -/
def build_sentiment_breakdown (sentiment : SentimentOutput) : SentimentBreakdown :=
  let breakdown := sentiment.sentiment_breakdown.getD ⟨none, none, none⟩
  let positive := breakdown.positive.getD (33.3 : ℚ)
  let neutral := breakdown.neutral.getD (33.3 : ℚ)
  let negative := breakdown.negative.getD (33.3 : ℚ)
  let total := positive + neutral + negative
  if 0 < total then
    let p := pyRound1 (positive / total * 100)
    let n := pyRound1 (neutral / total * 100)
    ⟨p, n, pyRound1 (100 - p - n)⟩
  else
    ⟨positive, neutral, negative⟩

/-- `InsightAggregator._build_top_issues`: first 10, unknown severity
coerced to `medium`. -/
def build_top_issues (issues : List IssueItem) : List TopIssue :=
  (issues.take 10).map fun it =>
    { issue := it.issue.getD "Unknown issue"
      frequency := it.frequency.getD 1
      severity := (sevParse (pyLower (it.severity.getD "medium"))).getD .medium }

/-- `InsightAggregator._build_feature_requests`: first 10. -/
def build_feature_requests (features : List FeatureItem) : List FeatureRequest :=
  (features.take 10).map fun ft =>
    { feature := ft.feature.getD "Unknown feature"
      count := ft.count.getD 1 }

/-- `InsightAggregator._build_monetization_risks`: first 5 of `risks`,
unknown confidence coerced to `medium`. -/
def build_monetization_risks (monetization : MonetizationOutput) : List MonetizationRisk :=
  ((monetization.risks.getD []).take 5).map fun rk =>
    { risk := rk.risk.getD "Unknown risk"
      confidence := (sevParse (pyLower (rk.confidence.getD "medium"))).getD .medium }

/-- `InsightAggregator._build_recommended_actions`: first 10, `critical`
folded into `high`, unknown priority coerced to `medium`. -/
def build_recommended_actions (actions : List ActionItem) : List RecommendedAction :=
  (actions.take 10).map fun a =>
    let p0 := pyLower (a.priority.getD "medium")
    let p1 := if p0 = "critical" then "high" else p0
    { action := a.action.getD "Unknown action"
      priority := (priParse p1).getD .medium
      expected_impact := a.expected_impact.getD "" }

/-- `InsightAggregator._generate_summary`: the fixed clause sequence. -/
def generate_summary (reviews_analyzed : Nat) (sentiment : SentimentOutput)
    (issues_count features_count : Nat) (monetization : MonetizationOutput) : String :=
  let overall_sentiment := sentiment.overall_sentiment.getD "neutral"
  let monetization_risk := monetization.overall_risk.getD "low"
  let parts :=
    ["Analysis of " ++ decRepr reviews_analyzed ++ " reviews reveals "
        ++ overall_sentiment ++ " overall sentiment."]
    ++ (if 0 < issues_count then
          [decRepr issues_count ++ " key issues were identified."] else [])
    ++ (if 0 < features_count then
          ["Users requested " ++ decRepr features_count ++ " new features."] else [])
    ++ (if monetization_risk = "medium" ∨ monetization_risk = "high" then
          ["Monetization risk is " ++ monetization_risk ++ "; review pricing strategy."]
        else [])
  String.intercalate " " parts

/-- `InsightAggregator.aggregate`: assembles the final `InsightResult`;
the `datetime.utcnow()` stamp is the explicit `now` argument. -/
def aggregate (app_id : String) (platform : Platform) (reviews_analyzed : Nat)
    (analysis_version : String) (sentiment : SentimentOutput)
    (issues : List IssueItem) (features : List FeatureItem)
    (monetization : MonetizationOutput) (actions : List ActionItem)
    (now : Nat) : InsightResult :=
  let top_issues := build_top_issues issues
  let feature_requests := build_feature_requests features
  { summary := generate_summary reviews_analyzed sentiment
      top_issues.length feature_requests.length monetization
    sentiment_breakdown := build_sentiment_breakdown sentiment
    top_issues := top_issues
    feature_requests := feature_requests
    monetization_risks := build_monetization_risks monetization
    recommended_actions := build_recommended_actions actions
    app_id := app_id
    platform := platform
    reviews_analyzed := reviews_analyzed
    analysis_version := analysis_version
    generated_at := now }

end InsightAggregator

/-! ### Issue pipeline batch merge (`pipelines/issues.py`, `IssuePipeline.analyze`)

The LLM call itself is external; what is embedded is the pure merge of
the collected batch-level items (`all_issues`) into `issue_map`, a
dict keyed by the lowercased, stripped issue name (modelled as an
insertion-ordered association list), followed by the ranking sort. -/

namespace IssuePipeline

/-- `IssuePipeline._severity_level`: `{"low": 1, "medium": 2, "high": 3}`
with default 1 for anything else. -/
def severity_level (severity : String) : Nat :=
  if severity = "low" then 1
  else if severity = "medium" then 2
  else if severity = "high" then 3
  else 1

/-- The dedup key: `issue.get("issue", "").lower().strip()`. -/
def issueKey (it : IssueItem) : String := pyStrip (pyLower (it.issue.getD ""))

/-- Merged entry stored in `issue_map`. -/
structure MergedIssue where
  issue : String
  frequency : ℤ
  severity : String
  category : String
deriving DecidableEq

/-- Merge a duplicate into an existing entry: add the frequency, keep the
severity unless the incoming one is strictly higher. -/
def mergeInto (cur : MergedIssue) (it : IssueItem) : MergedIssue :=
  let merged := { cur with frequency := cur.frequency + it.frequency.getD 1 }
  if severity_level (merged.severity) < severity_level (it.severity.getD "low")
  then { merged with severity := it.severity.getD "low" }
  else merged

/-- First entry stored for a key. -/
def newEntry (key : String) (it : IssueItem) : MergedIssue :=
  { issue := it.issue.getD key
    frequency := it.frequency.getD 1
    severity := it.severity.getD "medium"
    category := it.category.getD "other" }

/-- One iteration of the `for issue in all_issues` merge loop over the
insertion-ordered map. -/
def issueStep (m : List (String × MergedIssue)) (it : IssueItem) :
    List (String × MergedIssue) :=
  let name := issueKey it
  if name = "" then m
  else
    match m.lookup name with
    | some cur => m.map fun kv => if kv.1 = name then (name, mergeInto cur it) else kv
    | none => m ++ [(name, newEntry name it)]

/-- The whole merge loop: fold all batch-level items into `issue_map`. -/
def mergeIssues (l : List IssueItem) : List (String × MergedIssue) :=
  l.foldl issueStep []

/-- The ranking key `x["frequency"] * self._severity_level(x["severity"])`. -/
def issueRank (mi : MergedIssue) : ℤ := mi.frequency * severity_level mi.severity

/-- The pure tail of `IssuePipeline.analyze`: merge, stable sort by rank
descending, truncate to 20. -/
def mergeAndRank (l : List IssueItem) : List MergedIssue :=
  (((mergeIssues l).map Prod.snd).mergeSort fun a b => decide (issueRank b ≤ issueRank a)).take 20

end IssuePipeline

/-! ### Orchestrator (`core/worker.py`, `process_job`)

External collaborators (the fetch and the five passes) are inputs of a
`WorkerEnv`: each pass yields either a hard failure message (a raised
exception, surfaced by `asyncio.gather(..., return_exceptions=True)`) or
its output together with its `tokens_used` count.  The job store holds a
single record, threaded through the run; `datetime.utcnow()` is the
abstract clock value `env.now`.  Alongside the final record, the model
returns the list of progress values written by the run (the record's
initial progress is not part of the list). -/

/-- The configured limits (`config.py`, class `Settings`). -/
structure Settings where
  max_token_budget_per_job : Nat
  max_review_count : Nat
deriving DecidableEq

/-- The orchestrator's environment: fetch result, the four independent
passes, the dependent action pass, and the clock. -/
structure WorkerEnv where
  fetched : List Review
  sentiment : Except String (SentimentOutput × Nat)
  issues : Except String (List IssueItem × Nat)
  features : Except String (List FeatureItem × Nat)
  monetization : Except String (MonetizationOutput × Nat)
  actions : Except String (List ActionItem × Nat)
  now : Nat

/-- The first failed pass in the order the worker's loop checks
`pipeline_results` (sentiment, issues, features, monetization). -/
def firstPassError (env : WorkerEnv) : Option String :=
  match env.sentiment with
  | .error e => some e
  | .ok _ =>
    match env.issues with
    | .error e => some e
    | .ok _ =>
      match env.features with
      | .error e => some e
      | .ok _ =>
        match env.monetization with
        | .error e => some e
        | .ok _ => none

open JobManager InsightAggregator in
/-- `process_job`: the full orchestration of one job, returning the final
record and the progress checkpoints written.  The failure branches mirror
the early `return`s of the source; the action pass raising is caught by
the top-level handler (`SCHEMA_VALIDATION_FAILED`). -/
def process_job (s : Settings) (env : WorkerEnv) (job0 : JobData) :
    JobData × List Nat :=
  let j1 := update_status job0 .fetching_reviews (some 5) none none env.now
  let reviews := env.fetched
  if reviews.isEmpty then
    (fail_job j1 "Failed to fetch reviews from app store" .review_fetch_failed env.now, [5])
  else
    let j2 := set_reviews j1 reviews env.now
    let j3 := update_status j2 .fetching_reviews (some 20) none none env.now
    let j4 := update_status j3 .analyzing_reviews (some 25) none none env.now
    if s.max_review_count < reviews.length then
      (fail_job j4 ("Review count (" ++ decRepr reviews.length ++ ") exceeds limit ("
          ++ decRepr s.max_review_count ++ ")") .cost_limit_exceeded env.now, [5, 20, 25])
    else
      match env.sentiment with
      | .error e =>
        (fail_job j4 ("AI pipeline failed: " ++ e) .ai_timeout env.now, [5, 20, 25])
      | .ok (sentiment_result, sentiment_tokens) =>
      match env.issues with
      | .error e =>
        (fail_job j4 ("AI pipeline failed: " ++ e) .ai_timeout env.now, [5, 20, 25])
      | .ok (issues_result, issue_tokens) =>
      match env.features with
      | .error e =>
        (fail_job j4 ("AI pipeline failed: " ++ e) .ai_timeout env.now, [5, 20, 25])
      | .ok (features_result, feature_tokens) =>
      match env.monetization with
      | .error e =>
        (fail_job j4 ("AI pipeline failed: " ++ e) .ai_timeout env.now, [5, 20, 25])
      | .ok (monetization_result, monetization_tokens) =>
      let total_tokens := sentiment_tokens + issue_tokens + feature_tokens + monetization_tokens
      if s.max_token_budget_per_job < total_tokens then
        (fail_job j4 ("Token usage (" ++ decRepr total_tokens ++ ") exceeds budget ("
            ++ decRepr s.max_token_budget_per_job ++ ")") .cost_limit_exceeded env.now,
          [5, 20, 25])
      else
        let j5 := update_status j4 .analyzing_reviews (some 70) none none env.now
        match env.actions with
        | .error e =>
          (fail_job j5 e .schema_validation_failed env.now, [5, 20, 25, 70])
        | .ok (actions_result, action_tokens) =>
          let total_tokens2 := total_tokens + action_tokens
          let j6 := update_status j5 .analyzing_reviews (some 85) none none env.now
          let j7 := update_status j6 .aggregating_results (some 90) none none env.now
          let result := aggregate job0.app_id job0.platform reviews.length
            job0.options.analysis_version sentiment_result issues_result features_result
            monetization_result actions_result env.now
          (set_result j7 result total_tokens2 env.now, [5, 20, 25, 70, 85, 90, 100])

/-- The job record right after the fetch and phase-2 status updates
(the worker's `j4` in the model above): progress 5, reviews stored,
progress 20, then `ANALYZING` at progress 25. -/
def preAnalysis (env : WorkerEnv) (job0 : JobData) : JobData :=
  JobManager.update_status
    (JobManager.update_status
      (JobManager.set_reviews
        (JobManager.update_status job0 .fetching_reviews (some 5) none none env.now)
        env.fetched env.now)
      .fetching_reviews (some 20) none none env.now)
    .analyzing_reviews (some 25) none none env.now

/-! ### SHA-256 (the `hashlib.sha256(...).hexdigest()` digest used by
`generate_request_hash`; verified against the FIPS 180-4 test vectors) -/

/-- Truncate to a 32-bit word. -/
def w32 (n : Nat) : Nat := n % 4294967296

/-- 32-bit right rotation (of a value below 2^32). -/
def rotr32 (x n : Nat) : Nat := x / 2 ^ n + x % 2 ^ n * 2 ^ (32 - n)

/-- SHA-256 message-schedule sigma-0. -/
def smallSigma0 (x : Nat) : Nat := rotr32 x 7 ^^^ rotr32 x 18 ^^^ x >>> 3

/-- SHA-256 message-schedule sigma-1. -/
def smallSigma1 (x : Nat) : Nat := rotr32 x 17 ^^^ rotr32 x 19 ^^^ x >>> 10

/-- SHA-256 compression Sigma-0. -/
def bigSigma0 (x : Nat) : Nat := rotr32 x 2 ^^^ rotr32 x 13 ^^^ rotr32 x 22

/-- SHA-256 compression Sigma-1. -/
def bigSigma1 (x : Nat) : Nat := rotr32 x 6 ^^^ rotr32 x 11 ^^^ rotr32 x 25

/-- The 64 SHA-256 round constants. -/
def sha256K : List Nat :=
  [1116352408, 1899447441, 3049323471, 3921009573, 961987163,
   1508970993, 2453635748, 2870763221, 3624381080, 310598401,
   607225278, 1426881987, 1925078388, 2162078206, 2614888103,
   3248222580, 3835390401, 4022224774, 264347078, 604807628,
   770255983, 1249150122, 1555081692, 1996064986, 2554220882,
   2821834349, 2952996808, 3210313671, 3336571891, 3584528711,
   113926993, 338241895, 666307205, 773529912, 1294757372,
   1396182291, 1695183700, 1986661051, 2177026350, 2456956037,
   2730485921, 2820302411, 3259730800, 3345764771, 3516065817,
   3600352804, 4094571909, 275423344, 430227734, 506948616,
   659060556, 883997877, 958139571, 1322822218, 1537002063,
   1747873779, 1955562222, 2024104815, 2227730452, 2361852424,
   2428436474, 2756734187, 3204031479, 3329325298]

/-- The SHA-256 initial hash state. -/
def sha256H0 : List Nat :=
  [1779033703, 3144134277, 1013904242, 2773480762,
   1359893119, 2600822924, 528734635, 1541459225]

/-- UTF-8 encoding of one scalar value (Python `str.encode()`). -/
def charUtf8 (c : Char) : List Nat :=
  let n := c.toNat
  if n < 0x80 then [n]
  else if n < 0x800 then [0xC0 ||| n >>> 6, 0x80 ||| (n &&& 0x3F)]
  else if n < 0x10000 then
    [0xE0 ||| n >>> 12, 0x80 ||| (n >>> 6 &&& 0x3F), 0x80 ||| (n &&& 0x3F)]
  else
    [0xF0 ||| n >>> 18, 0x80 ||| (n >>> 12 &&& 0x3F), 0x80 ||| (n >>> 6 &&& 0x3F),
     0x80 ||| (n &&& 0x3F)]

/-- UTF-8 encoding of a string as a byte list. -/
def utf8Bytes (s : String) : List Nat := (s.data.map charUtf8).flatten

/-- Big-endian 8-byte encoding of the bit length. -/
def beBytes8 (n : Nat) : List Nat :=
  [n / 2 ^ 56 % 256, n / 2 ^ 48 % 256, n / 2 ^ 40 % 256, n / 2 ^ 32 % 256,
   n / 2 ^ 24 % 256, n / 2 ^ 16 % 256, n / 2 ^ 8 % 256, n % 256]

/-- SHA-256 padding to a multiple of 64 bytes. -/
def padBytes (msg : List Nat) : List Nat :=
  msg ++ [0x80] ++ List.replicate ((119 - msg.length % 64) % 64) 0
    ++ beBytes8 (8 * msg.length)

/-- Fuel-driven split into 64-byte blocks. -/
def toBlocksAux : Nat → List Nat → List (List Nat)
  | 0, _ => []
  | fuel + 1, l => if l = [] then [] else l.take 64 :: toBlocksAux fuel (l.drop 64)

/-- Split a byte list into 64-byte blocks. -/
def toBlocks (l : List Nat) : List (List Nat) := toBlocksAux l.length l

/-- Big-endian 32-bit words of a block. -/
def toWordsAux : Nat → List Nat → List Nat
  | 0, _ => []
  | fuel + 1, b0 :: b1 :: b2 :: b3 :: rest =>
    (b0 * 2 ^ 24 + b1 * 2 ^ 16 + b2 * 2 ^ 8 + b3) :: toWordsAux fuel rest
  | _ + 1, _ => []

/-- Extend the 16 block words by one scheduled word per fuel step. -/
def extendWAux : Nat → List Nat → List Nat
  | 0, w => w
  | fuel + 1, w =>
    extendWAux fuel (w ++ [w32 (smallSigma1 (w.getD (w.length - 2) 0)
      + w.getD (w.length - 7) 0 + smallSigma0 (w.getD (w.length - 15) 0)
      + w.getD (w.length - 16) 0)])

/-- The 64-word message schedule of one block. -/
def msgSchedule (block : List Nat) : List Nat := extendWAux 48 (toWordsAux 16 block)

/-- One SHA-256 compression round. -/
def compressRound (st : Nat × Nat × Nat × Nat × Nat × Nat × Nat × Nat)
    (k w : Nat) : Nat × Nat × Nat × Nat × Nat × Nat × Nat × Nat :=
  let (a, b, c, d, e, f, g, h) := st
  let t1 := w32 (h + bigSigma1 e + ((e &&& f) ^^^ ((e ^^^ 0xFFFFFFFF) &&& g)) + k + w)
  let t2 := w32 (bigSigma0 a + ((a &&& b) ^^^ (a &&& c) ^^^ (b &&& c)))
  (w32 (t1 + t2), a, b, c, w32 (d + t1), e, f, g)

/-- Compress one 64-byte block into the running hash state. -/
def compressBlock (h : List Nat) (block : List Nat) : List Nat :=
  let ws := msgSchedule block
  let st0 := (h.getD 0 0, h.getD 1 0, h.getD 2 0, h.getD 3 0, h.getD 4 0,
    h.getD 5 0, h.getD 6 0, h.getD 7 0)
  let stf := (sha256K.zip ws).foldl (fun st kw => compressRound st kw.1 kw.2) st0
  let (a, b, c, d, e, f, g, hh) := stf
  [w32 (h.getD 0 0 + a), w32 (h.getD 1 0 + b), w32 (h.getD 2 0 + c),
   w32 (h.getD 3 0 + d), w32 (h.getD 4 0 + e), w32 (h.getD 5 0 + f),
   w32 (h.getD 6 0 + g), w32 (h.getD 7 0 + hh)]

/-- The eight 32-bit words of the SHA-256 digest of a byte list. -/
def sha256Words (msg : List Nat) : List Nat :=
  (toBlocks (padBytes msg)).foldl compressBlock sha256H0

/-- Lowercase hex rendering of one 32-bit word. -/
def wordHex (w : Nat) : List Char :=
  [Nat.digitChar (w / 16 ^ 7 % 16), Nat.digitChar (w / 16 ^ 6 % 16),
   Nat.digitChar (w / 16 ^ 5 % 16), Nat.digitChar (w / 16 ^ 4 % 16),
   Nat.digitChar (w / 16 ^ 3 % 16), Nat.digitChar (w / 16 ^ 2 % 16),
   Nat.digitChar (w / 16 % 16), Nat.digitChar (w % 16)]

/-- `hashlib.sha256(s.encode()).hexdigest()`. -/
def sha256hex (s : String) : String :=
  ⟨((sha256Words (utf8Bytes s)).map wordHex).flatten⟩

/-! ### Request hash (`api/routes.py`, `generate_request_hash`) -/

/-- The four request fields the hash covers (`AnalyzeRequest` plus its
`options`; the platform is not part of the hash). -/
structure HashedRequest where
  app_url : String
  review_limit : Nat
  locale : Option String
  analysis_version : String
deriving DecidableEq

/-- Python string interpolation of the optional locale
(`f"...{request.options.locale}..."` renders `None` as `"None"`). -/
def localeStr : Option String → String
  | none => "None"
  | some s => s

/-- The pre-hash string
`f"{app_url}|{review_limit}|{locale}|{analysis_version}"`. -/
def requestData (r : HashedRequest) : String :=
  r.app_url ++ "|" ++ decRepr r.review_limit ++ "|" ++ localeStr r.locale
    ++ "|" ++ r.analysis_version

/-- `generate_request_hash`: `hashlib.sha256(data.encode()).hexdigest()[:32]`
(`[:32]` modelled as taking the first 32 characters of the digest). -/
def generate_request_hash (r : HashedRequest) : String :=
  ⟨(sha256hex (requestData r)).data.take 32⟩

/-! ### In-memory fallback cache (`core/cache.py`)

`InMemoryCache` stores plain strings in a Python dict; the dict is
modelled as an insertion-ordered association list.  `CacheManager` in
fallback mode serializes with `json.dumps` and parses with `json.loads`;
the standard-library codec is an external collaborator and is passed in
as the pair `dumps`/`loads` (with `loads` returning `none` on a
`JSONDecodeError`). -/

/-- `InMemoryCache.set`: the TTL argument `ex` is accepted and discarded. -/
def memSet (d : List (String × String)) (key value : String) (ex : Option Nat) :
    List (String × String) :=
  match ex with
  | _ =>
    if (d.lookup key).isSome then
      d.map fun kv => if kv.1 = key then (key, value) else kv
    else
      d ++ [(key, value)]

/-- `InMemoryCache.get`. -/
def memGet (d : List (String × String)) (key : String) : Option String :=
  d.lookup key

/-- `InMemoryCache.delete`: `self._data.pop(key, None)`. -/
def memDelete (d : List (String × String)) (key : String) :
    List (String × String) :=
  d.filter fun kv => kv.1 ≠ key

/-- `CacheManager.set_json` with the in-memory backend selected:
serialize, then `backend.set(key, json_str, ex=ttl)`. -/
def set_json {J : Type} (dumps : J → String) (d : List (String × String))
    (key : String) (value : J) (ttl : Option Nat) : List (String × String) :=
  memSet d key (dumps value) ttl

/-- `CacheManager.get_json` with the in-memory backend selected: the
source's `if value:` truthiness test makes an empty stored string come
back as `None` without parsing. -/
def get_json {J : Type} (loads : String → Option J) (d : List (String × String))
    (key : String) : Option J :=
  match memGet d key with
  | none => none
  | some s => if s = "" then none else loads s

/-- A later cache operation, as issued by other jobs or phases. -/
inductive CacheOp
  | setOp (key value : String) (ex : Option Nat)
  | delOp (key : String)

/-- The key a cache operation touches. -/
def CacheOp.key : CacheOp → String
  | .setOp k _ _ => k
  | .delOp k => k

/-- Apply one cache operation to the fallback store. -/
def applyOp (d : List (String × String)) : CacheOp → List (String × String)
  | .setOp k v ex => memSet d k v ex
  | .delOp k => memDelete d k

/-- Apply a sequence of cache operations. -/
def applyOps (d : List (String × String)) (ops : List CacheOp) :
    List (String × String) :=
  ops.foldl applyOp d

/-! ### Auxiliary definitions used by the proofs -/

/-- The local `total` of `_build_sentiment_breakdown`: the sum of the three
defaulted input percentages. -/
def sentimentTotal (sentiment : SentimentOutput) : ℚ :=
  let breakdown := sentiment.sentiment_breakdown.getD ⟨none, none, none⟩
  breakdown.positive.getD (33.3 : ℚ) + breakdown.neutral.getD (33.3 : ℚ)
    + breakdown.negative.getD (33.3 : ℚ)

/-- Specification of the merge loop restricted to the duplicates of one
key: fold the merge rule over the items, seeding with `newEntry` at the
first one. -/
def mergeRun (key : String) : Option IssuePipeline.MergedIssue → List IssueItem →
    Option IssuePipeline.MergedIssue
  | acc, [] => acc
  | none, it :: rest => mergeRun key (some (IssuePipeline.newEntry key it)) rest
  | some cur, it :: rest => mergeRun key (some (IssuePipeline.mergeInto cur it)) rest

/-- Decimal value of a digit string (left inverse of `decDigits`). -/
def decVal (l : List Char) : Nat :=
  l.foldl (fun a c => 10 * a + (c.toNat - 48)) 0

/-- `Char` is a finite type (Unicode scalar values are bounded). -/
instance : Finite Char := by
  apply Finite.of_injective (fun c : Char => (⟨c.toNat, by
    rcases c.valid with h | h
    · exact Nat.lt_trans h (by norm_num)
    · exact h.2⟩ : Fin 1114112))
  intro a b h
  simp only [Fin.mk.injEq] at h
  exact Char.ext (UInt32.ext h)

/-! ## Theorems -/

/-! ### Job store lemmas -/

open JobManager

theorem update_status_status (job : JobData) (st : JobStatus) (prog : Option Nat)
    (err : Option String) (code : Option ErrorCode) (now : Nat) :
    (update_status job st prog err code now).status = st := by
  unfold update_status
  cases prog <;> cases err <;> simp <;> split <;> simp

theorem update_status_frame (job : JobData) (st : JobStatus) (prog : Option Nat)
    (err : Option String) (code : Option ErrorCode) (now : Nat) :
    (update_status job st prog err code now).analysis_id = job.analysis_id
    ∧ (update_status job st prog err code now).app_url = job.app_url
    ∧ (update_status job st prog err code now).app_id = job.app_id
    ∧ (update_status job st prog err code now).platform = job.platform
    ∧ (update_status job st prog err code now).options = job.options
    ∧ (update_status job st prog err code now).request_hash = job.request_hash
    ∧ (update_status job st prog err code now).reviews = job.reviews
    ∧ (update_status job st prog err code now).result = job.result
    ∧ (update_status job st prog err code now).created_at = job.created_at
    ∧ (update_status job st prog err code now).tokens_used = job.tokens_used := by
  unfold update_status
  cases prog <;> cases err <;> simp <;> split <;> simp

theorem update_status_progress_none (job : JobData) (st : JobStatus)
    (err : Option String) (code : Option ErrorCode) (now : Nat) :
    (update_status job st none err code now).progress = job.progress := by
  unfold update_status
  cases err
  · simp
  · simp
    split <;> simp

theorem update_status_progress_some (job : JobData) (st : JobStatus) (p : Nat)
    (err : Option String) (code : Option ErrorCode) (now : Nat) :
    (update_status job st (some p) err code now).progress = p := by
  unfold update_status
  cases err
  · simp
  · simp
    split <;> simp

theorem update_status_error_set (job : JobData) (st : JobStatus) (prog : Option Nat)
    (e : String) (code : Option ErrorCode) (now : Nat) (he : e ≠ "") :
    (update_status job st prog (some e) code now).error = some e
    ∧ (update_status job st prog (some e) code now).error_code = code := by
  unfold update_status
  cases prog <;> simp [he]

theorem fail_job_status (job : JobData) (e : String) (c : ErrorCode) (now : Nat) :
    (fail_job job e c now).status = .failed :=
  update_status_status ..

theorem fail_job_error (job : JobData) (e : String) (c : ErrorCode) (now : Nat)
    (he : e ≠ "") :
    (fail_job job e c now).error = some e
    ∧ (fail_job job e c now).error_code = some c :=
  update_status_error_set job .failed none e (some c) now he

theorem fail_job_progress (job : JobData) (e : String) (c : ErrorCode) (now : Nat) :
    (fail_job job e c now).progress = job.progress :=
  update_status_progress_none ..

theorem set_result_status (job : JobData) (r : InsightResult) (t now : Nat) :
    (set_result job r t now).status = .completed := rfl

/-- C9: `fail_job` touches only status, error, error_code and updated_at;
every other field of the record is unchanged. -/
theorem c9_fail_job_frame (job : JobData) (e : String) (c : ErrorCode) (now : Nat) :
    (fail_job job e c now).progress = job.progress
    ∧ (fail_job job e c now).reviews = job.reviews
    ∧ (fail_job job e c now).result = job.result
    ∧ (fail_job job e c now).tokens_used = job.tokens_used
    ∧ (fail_job job e c now).options = job.options
    ∧ (fail_job job e c now).analysis_id = job.analysis_id
    ∧ (fail_job job e c now).app_url = job.app_url
    ∧ (fail_job job e c now).app_id = job.app_id
    ∧ (fail_job job e c now).platform = job.platform
    ∧ (fail_job job e c now).request_hash = job.request_hash
    ∧ (fail_job job e c now).created_at = job.created_at := by
  unfold fail_job update_status
  simp only []
  split <;> simp

/-- C1 counterexample: the store does not guard terminal states — a job
taken to `FAILED` by `fail_job` is moved back to `ANALYZING` by a
subsequent `update_status` call. -/
theorem c1_terminal_state_resurrected :
    (fail_job (create_job "a1" "https://apps.apple.com/us/app/x/id1" "1" .ios
        ⟨500, none, "v1"⟩ "h" 0) "boom" .ai_timeout 1).status = .failed
    ∧ (update_status (fail_job (create_job "a1" "https://apps.apple.com/us/app/x/id1"
        "1" .ios ⟨500, none, "v1"⟩ "h" 0) "boom" .ai_timeout 1)
        .analyzing_reviews (some 50) none none 2).status = .analyzing_reviews := by
  constructor <;> rfl

/-- C1 amended: the job store's update operations are unguarded — they
apply to a record regardless of its current (possibly terminal) status:
`update_status` sets exactly the requested status, `set_result` always
forces `COMPLETED` and `fail_job` always forces `FAILED`.  Terminal-state
immutability is not enforced by the store itself. -/
theorem c1_store_updates_unconditional (job : JobData) (st : JobStatus)
    (prog : Option Nat) (err : Option String) (code : Option ErrorCode)
    (r : InsightResult) (t : Nat) (e : String) (c : ErrorCode) (now : Nat) :
    (update_status job st prog err code now).status = st
    ∧ (set_result job r t now).status = .completed
    ∧ (fail_job job e c now).status = .failed := by
  refine ⟨?_, rfl, ?_⟩
  · unfold update_status
    cases prog <;> cases err <;> simp <;> split <;> simp
  · unfold fail_job update_status
    simp only []
    split <;> simp

/-! ### Sentiment normalization (C2) -/

theorem pyRound1_of_int_mul (x : ℚ) (k : ℤ) (h : x * 10 = (k : ℚ)) :
    pyRound1 x = x := by
  unfold pyRound1 pyRoundInt
  rw [h]
  have hfloor : ⌊(k : ℚ)⌋ = k := Int.floor_intCast k
  simp only [hfloor]
  have : (k : ℚ) - (k : ℚ) = 0 := by ring
  rw [this, if_pos (by norm_num)]
  field_simp
  linarith [h]

theorem pyRound1_mul_ten_int (x : ℚ) : ∃ k : ℤ, pyRound1 x * 10 = (k : ℚ) := by
  refine ⟨pyRoundInt (x * 10), ?_⟩
  unfold pyRound1
  field_simp

theorem round_triple (x y : ℚ) :
    pyRound1 x + pyRound1 y + pyRound1 (100 - pyRound1 x - pyRound1 y) = 100
    ∧ pyRound1 (100 - pyRound1 x - pyRound1 y) = 100 - pyRound1 x - pyRound1 y := by
  obtain ⟨a, ha⟩ := pyRound1_mul_ten_int x
  obtain ⟨b, hb⟩ := pyRound1_mul_ten_int y
  have h2 : pyRound1 (100 - pyRound1 x - pyRound1 y) = 100 - pyRound1 x - pyRound1 y :=
    pyRound1_of_int_mul _ (1000 - a - b) (by push_cast; linarith)
  exact ⟨by rw [h2]; ring, h2⟩

/-- C2 (amended): whenever the defaulted input total is positive, the
sentiment breakdown built by the aggregator satisfies
positive + neutral + negative = 100 exactly (hence within ±0.1), with
negative recomputed last so that it absorbs the rounding remainder. -/
theorem c2_sentiment_sum_100 (s : SentimentOutput) (h : 0 < sentimentTotal s) :
    (InsightAggregator.build_sentiment_breakdown s).positive
      + (InsightAggregator.build_sentiment_breakdown s).neutral
      + (InsightAggregator.build_sentiment_breakdown s).negative = 100
    ∧ (InsightAggregator.build_sentiment_breakdown s).negative
      = 100 - (InsightAggregator.build_sentiment_breakdown s).positive
          - (InsightAggregator.build_sentiment_breakdown s).neutral := by
  unfold InsightAggregator.build_sentiment_breakdown
  unfold sentimentTotal at h
  dsimp only at h ⊢
  rw [if_pos h]
  dsimp only
  exact ⟨(round_triple _ _).1, by rw [(round_triple _ _).2]⟩

/-- Witness for C2 at the spec's example input 40/35/20. -/
theorem c2_sentiment_sum_100_witness :
    0 < sentimentTotal ⟨some ⟨some 40, some 35, some 20⟩, none⟩
    ∧ ((InsightAggregator.build_sentiment_breakdown ⟨some ⟨some 40, some 35, some 20⟩, none⟩).positive
        + (InsightAggregator.build_sentiment_breakdown ⟨some ⟨some 40, some 35, some 20⟩, none⟩).neutral
        + (InsightAggregator.build_sentiment_breakdown ⟨some ⟨some 40, some 35, some 20⟩, none⟩).negative = 100
      ∧ (InsightAggregator.build_sentiment_breakdown ⟨some ⟨some 40, some 35, some 20⟩, none⟩).negative
        = 100 - (InsightAggregator.build_sentiment_breakdown ⟨some ⟨some 40, some 35, some 20⟩, none⟩).positive
            - (InsightAggregator.build_sentiment_breakdown ⟨some ⟨some 40, some 35, some 20⟩, none⟩).neutral) :=
  ⟨by norm_num [sentimentTotal],
   c2_sentiment_sum_100 ⟨some ⟨some 40, some 35, some 20⟩, none⟩ (by norm_num [sentimentTotal])⟩

/-! ### Orchestrator branch evaluations -/

theorem string_append_ne_empty (a b : String) (ha : a.data ≠ []) : a ++ b ≠ "" := by
  intro h
  have h2 : (a ++ b).data = [] := congrArg String.data h
  rw [String.data_append] at h2
  exact ha (List.append_eq_nil.mp h2).1

theorem data_append_ne_nil (a b : String) (ha : a.data ≠ []) : (a ++ b).data ≠ [] := by
  rw [String.data_append]
  intro h
  exact ha (List.append_eq_nil.mp h).1

theorem process_job_eval_empty (s : Settings) (env : WorkerEnv) (job0 : JobData)
    (h : env.fetched = []) :
    process_job s env job0 =
      (fail_job (update_status job0 .fetching_reviews (some 5) none none env.now)
        "Failed to fetch reviews from app store" .review_fetch_failed env.now, [5]) := by
  unfold process_job
  rw [h]
  rfl

theorem process_job_eval_count (s : Settings) (env : WorkerEnv) (job0 : JobData)
    (hne : env.fetched.isEmpty = false)
    (hcnt : s.max_review_count < env.fetched.length) :
    process_job s env job0 =
      (fail_job (preAnalysis env job0)
        ("Review count (" ++ decRepr env.fetched.length ++ ") exceeds limit ("
          ++ decRepr s.max_review_count ++ ")") .cost_limit_exceeded env.now,
        [5, 20, 25]) := by
  unfold process_job preAnalysis
  dsimp only
  rw [hne]
  simp only [Bool.false_eq_true, if_false]
  rw [if_pos hcnt]

theorem process_job_eval_pass_fail (s : Settings) (env : WorkerEnv) (job0 : JobData)
    (e : String) (hne : env.fetched.isEmpty = false)
    (hcnt : ¬ s.max_review_count < env.fetched.length)
    (hfail : firstPassError env = some e) :
    process_job s env job0 =
      (fail_job (preAnalysis env job0) ("AI pipeline failed: " ++ e) .ai_timeout
        env.now, [5, 20, 25]) := by
  unfold process_job preAnalysis
  unfold firstPassError at hfail
  dsimp only
  rw [hne]
  simp only [Bool.false_eq_true, if_false]
  rw [if_neg hcnt]
  cases hs : env.sentiment with
  | error e1 =>
    rw [hs] at hfail
    simp only [Option.some.injEq] at hfail
    subst hfail
    rfl
  | ok p1 =>
    rw [hs] at hfail
    obtain ⟨sres, stok⟩ := p1
    cases hi : env.issues with
    | error e1 =>
      rw [hi] at hfail
      simp only [Option.some.injEq] at hfail
      subst hfail
      rfl
    | ok p2 =>
      rw [hi] at hfail
      obtain ⟨ires, itok⟩ := p2
      cases hf : env.features with
      | error e1 =>
        rw [hf] at hfail
        simp only [Option.some.injEq] at hfail
        subst hfail
        rfl
      | ok p3 =>
        rw [hf] at hfail
        obtain ⟨fres, ftok⟩ := p3
        cases hm : env.monetization with
        | error e1 =>
          rw [hm] at hfail
          simp only [Option.some.injEq] at hfail
          subst hfail
          rfl
        | ok p4 =>
          rw [hm] at hfail
          exact absurd hfail (by simp)

theorem process_job_eval_budget (s : Settings) (env : WorkerEnv) (job0 : JobData)
    (sres : SentimentOutput) (ires : List IssueItem) (fres : List FeatureItem)
    (mres : MonetizationOutput) (stok itok ftok mtok : Nat)
    (hne : env.fetched.isEmpty = false)
    (hcnt : ¬ s.max_review_count < env.fetched.length)
    (hs : env.sentiment = .ok (sres, stok)) (hi : env.issues = .ok (ires, itok))
    (hf : env.features = .ok (fres, ftok)) (hm : env.monetization = .ok (mres, mtok))
    (hbud : s.max_token_budget_per_job < stok + itok + ftok + mtok) :
    process_job s env job0 =
      (fail_job (preAnalysis env job0)
        ("Token usage (" ++ decRepr (stok + itok + ftok + mtok) ++ ") exceeds budget ("
          ++ decRepr s.max_token_budget_per_job ++ ")") .cost_limit_exceeded env.now,
        [5, 20, 25]) := by
  unfold process_job preAnalysis
  dsimp only
  rw [hne]
  simp only [Bool.false_eq_true, if_false]
  rw [if_neg hcnt, hs, hi, hf, hm]
  simp only []
  rw [if_pos hbud]

theorem process_job_eval_action_fail (s : Settings) (env : WorkerEnv) (job0 : JobData)
    (sres : SentimentOutput) (ires : List IssueItem) (fres : List FeatureItem)
    (mres : MonetizationOutput) (stok itok ftok mtok : Nat) (e : String)
    (hne : env.fetched.isEmpty = false)
    (hcnt : ¬ s.max_review_count < env.fetched.length)
    (hs : env.sentiment = .ok (sres, stok)) (hi : env.issues = .ok (ires, itok))
    (hf : env.features = .ok (fres, ftok)) (hm : env.monetization = .ok (mres, mtok))
    (hbud : ¬ s.max_token_budget_per_job < stok + itok + ftok + mtok)
    (ha : env.actions = .error e) :
    process_job s env job0 =
      (fail_job
        (update_status (preAnalysis env job0) .analyzing_reviews (some 70) none none
          env.now) e .schema_validation_failed env.now, [5, 20, 25, 70]) := by
  unfold process_job preAnalysis
  dsimp only
  rw [hne]
  simp only [Bool.false_eq_true, if_false]
  rw [if_neg hcnt, hs, hi, hf, hm]
  simp only []
  rw [if_neg hbud, ha]

theorem process_job_eval_happy (s : Settings) (env : WorkerEnv) (job0 : JobData)
    (sres : SentimentOutput) (ires : List IssueItem) (fres : List FeatureItem)
    (mres : MonetizationOutput) (ares : List ActionItem)
    (stok itok ftok mtok atok : Nat)
    (hne : env.fetched.isEmpty = false)
    (hcnt : ¬ s.max_review_count < env.fetched.length)
    (hs : env.sentiment = .ok (sres, stok)) (hi : env.issues = .ok (ires, itok))
    (hf : env.features = .ok (fres, ftok)) (hm : env.monetization = .ok (mres, mtok))
    (hbud : ¬ s.max_token_budget_per_job < stok + itok + ftok + mtok)
    (ha : env.actions = .ok (ares, atok)) :
    process_job s env job0 =
      (set_result
        (update_status
          (update_status
            (update_status (preAnalysis env job0) .analyzing_reviews (some 70) none
              none env.now)
            .analyzing_reviews (some 85) none none env.now)
          .aggregating_results (some 90) none none env.now)
        (InsightAggregator.aggregate job0.app_id job0.platform env.fetched.length
          job0.options.analysis_version sres ires fres mres ares env.now)
        (stok + itok + ftok + mtok + atok) env.now,
        [5, 20, 25, 70, 85, 90, 100]) := by
  unfold process_job preAnalysis
  dsimp only
  rw [hne]
  simp only [Bool.false_eq_true, if_false]
  rw [if_neg hcnt, hs, hi, hf, hm]
  simp only []
  rw [if_neg hbud, ha]

/-- C5: on a fetch of zero reviews the job fails with
`REVIEW_FETCH_FAILED` (code `ERR_REVIEW_FETCH_FAILED`), progress stays at
its last set value 5 (which is ≤ 20), and the run stops before any
analysis pass executes — the outcome does not depend on any pass result. -/
theorem c5_zero_reviews_fail (s : Settings) (env : WorkerEnv) (job0 : JobData)
    (h : env.fetched = []) :
    (process_job s env job0).1.status = .failed
    ∧ (process_job s env job0).1.error_code = some .review_fetch_failed
    ∧ ErrorCode.code .review_fetch_failed = "ERR_REVIEW_FETCH_FAILED"
    ∧ (process_job s env job0).1.progress = 5
    ∧ (process_job s env job0).1.progress ≤ 20
    ∧ (process_job s env job0).2 = [5]
    ∧ ∀ se iss fe mo ac,
        process_job s { env with sentiment := se, issues := iss, features := fe,
                                 monetization := mo, actions := ac } job0
          = process_job s env job0 := by
  have heval := process_job_eval_empty s env job0 h
  rw [heval]
  have hprog : (fail_job (update_status job0 .fetching_reviews (some 5) none none
      env.now) "Failed to fetch reviews from app store" .review_fetch_failed
      env.now).progress = 5 := by
    rw [fail_job_progress, update_status_progress_some]
  refine ⟨fail_job_status .., ?_, rfl, hprog, ?_, rfl, ?_⟩
  · exact (fail_job_error _ _ _ _ (by decide)).2
  · rw [hprog]
    decide
  · intro se iss fe mo ac
    have h2 : ({ env with sentiment := se, issues := iss, features := fe, monetization := mo, actions := ac } : WorkerEnv).fetched = [] := h
    rw [process_job_eval_empty _ _ job0 h2]

/-- Witness for C5: a concrete empty fetch. -/
theorem c5_zero_reviews_fail_witness :
    (⟨[], .ok (⟨none, none⟩, 0), .ok ([], 0), .ok ([], 0), .ok (⟨none, none⟩, 0),
        .ok ([], 0), 7⟩ : WorkerEnv).fetched = []
    ∧ ((process_job ⟨50000, 1000⟩
          ⟨[], .ok (⟨none, none⟩, 0), .ok ([], 0), .ok ([], 0), .ok (⟨none, none⟩, 0),
            .ok ([], 0), 7⟩
          (create_job "a1" "https://apps.apple.com/us/app/x/id1" "1" .ios
            ⟨500, none, "v1"⟩ "h" 0)).1.status = .failed
      ∧ (process_job ⟨50000, 1000⟩
          ⟨[], .ok (⟨none, none⟩, 0), .ok ([], 0), .ok ([], 0), .ok (⟨none, none⟩, 0),
            .ok ([], 0), 7⟩
          (create_job "a1" "https://apps.apple.com/us/app/x/id1" "1" .ios
            ⟨500, none, "v1"⟩ "h" 0)).1.error_code = some .review_fetch_failed
      ∧ ErrorCode.code .review_fetch_failed = "ERR_REVIEW_FETCH_FAILED"
      ∧ (process_job ⟨50000, 1000⟩
          ⟨[], .ok (⟨none, none⟩, 0), .ok ([], 0), .ok ([], 0), .ok (⟨none, none⟩, 0),
            .ok ([], 0), 7⟩
          (create_job "a1" "https://apps.apple.com/us/app/x/id1" "1" .ios
            ⟨500, none, "v1"⟩ "h" 0)).1.progress = 5
      ∧ (process_job ⟨50000, 1000⟩
          ⟨[], .ok (⟨none, none⟩, 0), .ok ([], 0), .ok ([], 0), .ok (⟨none, none⟩, 0),
            .ok ([], 0), 7⟩
          (create_job "a1" "https://apps.apple.com/us/app/x/id1" "1" .ios
            ⟨500, none, "v1"⟩ "h" 0)).1.progress ≤ 20
      ∧ (process_job ⟨50000, 1000⟩
          ⟨[], .ok (⟨none, none⟩, 0), .ok ([], 0), .ok ([], 0), .ok (⟨none, none⟩, 0),
            .ok ([], 0), 7⟩
          (create_job "a1" "https://apps.apple.com/us/app/x/id1" "1" .ios
            ⟨500, none, "v1"⟩ "h" 0)).2 = [5]
      ∧ ∀ se iss fe mo ac,
          process_job ⟨50000, 1000⟩
            { (⟨[], .ok (⟨none, none⟩, 0), .ok ([], 0), .ok ([], 0), .ok (⟨none, none⟩, 0), .ok ([], 0), 7⟩ : WorkerEnv) with sentiment := se, issues := iss, features := fe, monetization := mo, actions := ac }
            (create_job "a1" "https://apps.apple.com/us/app/x/id1" "1" .ios
              ⟨500, none, "v1"⟩ "h" 0)
            = process_job ⟨50000, 1000⟩
              ⟨[], .ok (⟨none, none⟩, 0), .ok ([], 0), .ok ([], 0),
                .ok (⟨none, none⟩, 0), .ok ([], 0), 7⟩
              (create_job "a1" "https://apps.apple.com/us/app/x/id1" "1" .ios
                ⟨500, none, "v1"⟩ "h" 0)) :=
  ⟨rfl, c5_zero_reviews_fail _ _ _ rfl⟩

/-- C3: if any of the four independent passes raises a failure, the job
fails with kind `AI_TIMEOUT` carrying that pass's error message, no
result is stored (the record's result field is unchanged and the job is
not `COMPLETED`), and the dependent action pass never influences the
outcome. -/
theorem c3_pass_failure_all_or_nothing (s : Settings) (env : WorkerEnv)
    (job0 : JobData) (e : String) (hne : env.fetched ≠ [])
    (hcnt : env.fetched.length ≤ s.max_review_count)
    (hfail : firstPassError env = some e) :
    (process_job s env job0).1.status = .failed
    ∧ (process_job s env job0).1.error_code = some .ai_timeout
    ∧ ErrorCode.code .ai_timeout = "ERR_AI_TIMEOUT"
    ∧ (process_job s env job0).1.error = some ("AI pipeline failed: " ++ e)
    ∧ (process_job s env job0).1.result = job0.result
    ∧ (process_job s env job0).1.status ≠ .completed
    ∧ ∀ ac, process_job s { env with actions := ac } job0
        = process_job s env job0 := by
  have hne' : env.fetched.isEmpty = false := by
    simp [List.isEmpty_eq_false, hne]
  have hcnt' : ¬ s.max_review_count < env.fetched.length := Nat.not_lt.mpr hcnt
  have hmsg : ("AI pipeline failed: " ++ e : String) ≠ "" :=
    string_append_ne_empty _ _ (by decide)
  have heval := process_job_eval_pass_fail s env job0 e hne' hcnt' hfail
  rw [heval]
  refine ⟨fail_job_status .., (fail_job_error _ _ _ _ hmsg).2, rfl,
    (fail_job_error _ _ _ _ hmsg).1, ?_, ?_, ?_⟩
  · rfl
  · rw [fail_job_status]
    decide
  · intro ac
    rw [process_job_eval_pass_fail s { env with actions := ac } job0 e hne' hcnt' hfail]
    rfl

/-- Witness for C3: the issues pass raises, the other passes succeed. -/
theorem c3_pass_failure_all_or_nothing_witness :
    (⟨[⟨"r1", 5, 0, "en-US", none, "Great", none, none⟩],
        .ok (⟨none, none⟩, 0), .error "timeout", .ok ([], 0), .ok (⟨none, none⟩, 0),
        .ok ([], 0), 7⟩ : WorkerEnv).fetched ≠ []
    ∧ (⟨[⟨"r1", 5, 0, "en-US", none, "Great", none, none⟩],
        .ok (⟨none, none⟩, 0), .error "timeout", .ok ([], 0), .ok (⟨none, none⟩, 0),
        .ok ([], 0), 7⟩ : WorkerEnv).fetched.length
        ≤ (⟨50000, 1000⟩ : Settings).max_review_count
    ∧ firstPassError ⟨[⟨"r1", 5, 0, "en-US", none, "Great", none, none⟩],
        .ok (⟨none, none⟩, 0), .error "timeout", .ok ([], 0), .ok (⟨none, none⟩, 0),
        .ok ([], 0), 7⟩ = some "timeout"
    ∧ (process_job ⟨50000, 1000⟩
        ⟨[⟨"r1", 5, 0, "en-US", none, "Great", none, none⟩],
          .ok (⟨none, none⟩, 0), .error "timeout", .ok ([], 0), .ok (⟨none, none⟩, 0),
          .ok ([], 0), 7⟩
        (create_job "a1" "https://apps.apple.com/us/app/x/id1" "1" .ios
          ⟨500, none, "v1"⟩ "h" 0)).1.status = .failed
    ∧ (process_job ⟨50000, 1000⟩
        ⟨[⟨"r1", 5, 0, "en-US", none, "Great", none, none⟩],
          .ok (⟨none, none⟩, 0), .error "timeout", .ok ([], 0), .ok (⟨none, none⟩, 0),
          .ok ([], 0), 7⟩
        (create_job "a1" "https://apps.apple.com/us/app/x/id1" "1" .ios
          ⟨500, none, "v1"⟩ "h" 0)).1.error
        = some ("AI pipeline failed: " ++ "timeout") := by
  have h := c3_pass_failure_all_or_nothing ⟨50000, 1000⟩
    ⟨[⟨"r1", 5, 0, "en-US", none, "Great", none, none⟩],
      .ok (⟨none, none⟩, 0), .error "timeout", .ok ([], 0), .ok (⟨none, none⟩, 0),
      .ok ([], 0), 7⟩
    (create_job "a1" "https://apps.apple.com/us/app/x/id1" "1" .ios
      ⟨500, none, "v1"⟩ "h" 0)
    "timeout" (by decide) (by decide) rfl
  exact ⟨by decide, by decide, rfl, h.1, h.2.2.2.1⟩

/-- C4: when the four independent passes succeed but their summed token
cost exceeds the per-job budget, the job fails with
`COST_LIMIT_EXCEEDED` (code `ERR_COST_LIMIT_EXCEEDED`) right after the
analysis phase (progress trace stops at 25, before the dependent pass's
70/85 checkpoints), the job's token counter is never updated, and the
dependent action pass never influences the outcome. -/
theorem c4_token_budget_before_actions (s : Settings) (env : WorkerEnv)
    (job0 : JobData) (sres : SentimentOutput) (ires : List IssueItem)
    (fres : List FeatureItem) (mres : MonetizationOutput)
    (stok itok ftok mtok : Nat) (hne : env.fetched ≠ [])
    (hcnt : env.fetched.length ≤ s.max_review_count)
    (hs : env.sentiment = .ok (sres, stok)) (hi : env.issues = .ok (ires, itok))
    (hf : env.features = .ok (fres, ftok)) (hm : env.monetization = .ok (mres, mtok))
    (hbud : s.max_token_budget_per_job < stok + itok + ftok + mtok) :
    (process_job s env job0).1.status = .failed
    ∧ (process_job s env job0).1.error_code = some .cost_limit_exceeded
    ∧ ErrorCode.code .cost_limit_exceeded = "ERR_COST_LIMIT_EXCEEDED"
    ∧ (process_job s env job0).1.tokens_used = job0.tokens_used
    ∧ (process_job s env job0).1.result = job0.result
    ∧ (process_job s env job0).2 = [5, 20, 25]
    ∧ ∀ ac, process_job s { env with actions := ac } job0
        = process_job s env job0 := by
  have hne' : env.fetched.isEmpty = false := by
    simp [List.isEmpty_eq_false, hne]
  have hcnt' : ¬ s.max_review_count < env.fetched.length := Nat.not_lt.mpr hcnt
  have heval := process_job_eval_budget s env job0 sres ires fres mres
    stok itok ftok mtok hne' hcnt' hs hi hf hm hbud
  rw [heval]
  have hmsg : ("Token usage (" ++ decRepr (stok + itok + ftok + mtok)
      ++ ") exceeds budget (" ++ decRepr s.max_token_budget_per_job ++ ")" : String)
      ≠ "" :=
    string_append_ne_empty _ _ (data_append_ne_nil _ _ (data_append_ne_nil _ _
      (data_append_ne_nil _ _ (by decide))))
  refine ⟨fail_job_status .., (fail_job_error _ _ _ _ hmsg).2, rfl, rfl, rfl, rfl, ?_⟩
  intro ac
  rw [process_job_eval_budget s { env with actions := ac } job0 sres ires fres mres
    stok itok ftok mtok hne' hcnt' hs hi hf hm hbud]
  rfl

/-- Witness for C4 at the spec's example numbers: four successful passes
costing 60,000 tokens in total against a budget of 50,000. -/
theorem c4_token_budget_before_actions_witness :
    (⟨[⟨"r1", 5, 0, "en-US", none, "Great", none, none⟩], .ok (⟨none, none⟩, 15000), .ok ([], 15000), .ok ([], 15000), .ok (⟨none, none⟩, 15000), .ok ([], 123), 7⟩ : WorkerEnv).fetched ≠ []
    ∧ (⟨[⟨"r1", 5, 0, "en-US", none, "Great", none, none⟩], .ok (⟨none, none⟩, 15000), .ok ([], 15000), .ok ([], 15000), .ok (⟨none, none⟩, 15000), .ok ([], 123), 7⟩ : WorkerEnv).fetched.length ≤ (⟨50000, 1000⟩ : Settings).max_review_count
    ∧ (⟨50000, 1000⟩ : Settings).max_token_budget_per_job < 15000 + 15000 + 15000 + 15000
    ∧ (process_job ⟨50000, 1000⟩ ⟨[⟨"r1", 5, 0, "en-US", none, "Great", none, none⟩], .ok (⟨none, none⟩, 15000), .ok ([], 15000), .ok ([], 15000), .ok (⟨none, none⟩, 15000), .ok ([], 123), 7⟩ (create_job "a1" "https://apps.apple.com/us/app/x/id1" "1" .ios ⟨500, none, "v1"⟩ "h" 0)).1.status = .failed
    ∧ (process_job ⟨50000, 1000⟩ ⟨[⟨"r1", 5, 0, "en-US", none, "Great", none, none⟩], .ok (⟨none, none⟩, 15000), .ok ([], 15000), .ok ([], 15000), .ok (⟨none, none⟩, 15000), .ok ([], 123), 7⟩ (create_job "a1" "https://apps.apple.com/us/app/x/id1" "1" .ios ⟨500, none, "v1"⟩ "h" 0)).1.error_code = some .cost_limit_exceeded
    ∧ (process_job ⟨50000, 1000⟩ ⟨[⟨"r1", 5, 0, "en-US", none, "Great", none, none⟩], .ok (⟨none, none⟩, 15000), .ok ([], 15000), .ok ([], 15000), .ok (⟨none, none⟩, 15000), .ok ([], 123), 7⟩ (create_job "a1" "https://apps.apple.com/us/app/x/id1" "1" .ios ⟨500, none, "v1"⟩ "h" 0)).1.tokens_used = (create_job "a1" "https://apps.apple.com/us/app/x/id1" "1" .ios ⟨500, none, "v1"⟩ "h" 0).tokens_used
    ∧ (process_job ⟨50000, 1000⟩ ⟨[⟨"r1", 5, 0, "en-US", none, "Great", none, none⟩], .ok (⟨none, none⟩, 15000), .ok ([], 15000), .ok ([], 15000), .ok (⟨none, none⟩, 15000), .ok ([], 123), 7⟩ (create_job "a1" "https://apps.apple.com/us/app/x/id1" "1" .ios ⟨500, none, "v1"⟩ "h" 0)).2 = [5, 20, 25] := by
  have h := c4_token_budget_before_actions ⟨50000, 1000⟩
    ⟨[⟨"r1", 5, 0, "en-US", none, "Great", none, none⟩], .ok (⟨none, none⟩, 15000), .ok ([], 15000), .ok ([], 15000), .ok (⟨none, none⟩, 15000), .ok ([], 123), 7⟩
    (create_job "a1" "https://apps.apple.com/us/app/x/id1" "1" .ios ⟨500, none, "v1"⟩ "h" 0)
    ⟨none, none⟩ [] [] ⟨none, none⟩ 15000 15000 15000 15000
    (by decide) (by decide) rfl rfl rfl rfl (by decide)
  exact ⟨by decide, by decide, by decide, h.1, h.2.1, h.2.2.2.1, h.2.2.2.2.2.1⟩

/-- C8: a run that reaches `COMPLETED` writes the progress checkpoints
5, 20, 25, 70, 85, 90, 100 in exactly that order; starting from the
record's initial progress 0 the full sequence 0, 5, 20, 25, 70, 85, 90,
100 is monotonically non-decreasing. -/
theorem c8_happy_path_progress (s : Settings) (env : WorkerEnv) (job0 : JobData)
    (h0 : job0.progress = 0)
    (hc : (process_job s env job0).1.status = .completed) :
    job0.progress :: (process_job s env job0).2 = [0, 5, 20, 25, 70, 85, 90, 100]
    ∧ List.Chain' (· ≤ ·) (job0.progress :: (process_job s env job0).2) := by
  cases hfe : env.fetched.isEmpty with
  | true =>
    rw [process_job_eval_empty s env job0 (List.isEmpty_iff.mp hfe)] at hc
    rw [fail_job_status] at hc
    exact absurd hc (by decide)
  | false =>
    by_cases hcnt : s.max_review_count < env.fetched.length
    · rw [process_job_eval_count s env job0 hfe hcnt] at hc
      rw [fail_job_status] at hc
      exact absurd hc (by decide)
    · cases hfp : firstPassError env with
      | some e =>
        rw [process_job_eval_pass_fail s env job0 e hfe hcnt hfp] at hc
        rw [fail_job_status] at hc
        exact absurd hc (by decide)
      | none =>
        unfold firstPassError at hfp
        cases hs : env.sentiment with
        | error e1 => rw [hs] at hfp; exact absurd hfp (by simp)
        | ok p1 =>
          rw [hs] at hfp
          obtain ⟨sres, stok⟩ := p1
          cases hi : env.issues with
          | error e1 => rw [hi] at hfp; exact absurd hfp (by simp)
          | ok p2 =>
            rw [hi] at hfp
            obtain ⟨ires, itok⟩ := p2
            cases hf : env.features with
            | error e1 => rw [hf] at hfp; exact absurd hfp (by simp)
            | ok p3 =>
              rw [hf] at hfp
              obtain ⟨fres, ftok⟩ := p3
              cases hm : env.monetization with
              | error e1 => rw [hm] at hfp; exact absurd hfp (by simp)
              | ok p4 =>
                obtain ⟨mres, mtok⟩ := p4
                by_cases hbud : s.max_token_budget_per_job < stok + itok + ftok + mtok
                · rw [process_job_eval_budget s env job0 sres ires fres mres
                      stok itok ftok mtok hfe hcnt hs hi hf hm hbud] at hc
                  rw [fail_job_status] at hc
                  exact absurd hc (by decide)
                · cases ha : env.actions with
                  | error e2 =>
                    rw [process_job_eval_action_fail s env job0 sres ires fres mres
                        stok itok ftok mtok e2 hfe hcnt hs hi hf hm hbud ha] at hc
                    rw [fail_job_status] at hc
                    exact absurd hc (by decide)
                  | ok p5 =>
                    obtain ⟨ares, atok⟩ := p5
                    rw [process_job_eval_happy s env job0 sres ires fres mres ares
                      stok itok ftok mtok atok hfe hcnt hs hi hf hm hbud ha]
                    rw [h0]
                    refine ⟨rfl, ?_⟩
                    show List.Chain' (· ≤ ·) (0 :: [5, 20, 25, 70, 85, 90, 100])
                    norm_num [List.chain'_cons]

/-- Witness for C8: a concrete happy-path run. -/
theorem c8_happy_path_progress_witness :
    (create_job "a1" "https://apps.apple.com/us/app/x/id1" "1" .ios ⟨500, none, "v1"⟩ "h" 0).progress = 0
    ∧ (process_job ⟨50000, 1000⟩ ⟨[⟨"r1", 5, 0, "en-US", none, "Great", none, none⟩], .ok (⟨none, none⟩, 10), .ok ([], 10), .ok ([], 10), .ok (⟨none, none⟩, 10), .ok ([], 5), 7⟩ (create_job "a1" "https://apps.apple.com/us/app/x/id1" "1" .ios ⟨500, none, "v1"⟩ "h" 0)).1.status = .completed
    ∧ ((create_job "a1" "https://apps.apple.com/us/app/x/id1" "1" .ios ⟨500, none, "v1"⟩ "h" 0).progress
        :: (process_job ⟨50000, 1000⟩ ⟨[⟨"r1", 5, 0, "en-US", none, "Great", none, none⟩], .ok (⟨none, none⟩, 10), .ok ([], 10), .ok ([], 10), .ok (⟨none, none⟩, 10), .ok ([], 5), 7⟩ (create_job "a1" "https://apps.apple.com/us/app/x/id1" "1" .ios ⟨500, none, "v1"⟩ "h" 0)).2
        = [0, 5, 20, 25, 70, 85, 90, 100]
      ∧ List.Chain' (· ≤ ·) ((create_job "a1" "https://apps.apple.com/us/app/x/id1" "1" .ios ⟨500, none, "v1"⟩ "h" 0).progress
          :: (process_job ⟨50000, 1000⟩ ⟨[⟨"r1", 5, 0, "en-US", none, "Great", none, none⟩], .ok (⟨none, none⟩, 10), .ok ([], 10), .ok ([], 10), .ok (⟨none, none⟩, 10), .ok ([], 5), 7⟩ (create_job "a1" "https://apps.apple.com/us/app/x/id1" "1" .ios ⟨500, none, "v1"⟩ "h" 0)).2)) := by
  refine ⟨rfl, ?_, ?_⟩
  · rw [process_job_eval_happy ⟨50000, 1000⟩ ⟨[⟨"r1", 5, 0, "en-US", none, "Great", none, none⟩], .ok (⟨none, none⟩, 10), .ok ([], 10), .ok ([], 10), .ok (⟨none, none⟩, 10), .ok ([], 5), 7⟩ (create_job "a1" "https://apps.apple.com/us/app/x/id1" "1" .ios ⟨500, none, "v1"⟩ "h" 0) ⟨none, none⟩ [] [] ⟨none, none⟩ [] 10 10 10 10 5 rfl (by decide) rfl rfl rfl rfl (by decide) rfl]
    rfl
  · exact c8_happy_path_progress _ _ _ rfl
      (by
        rw [process_job_eval_happy ⟨50000, 1000⟩ ⟨[⟨"r1", 5, 0, "en-US", none, "Great", none, none⟩], .ok (⟨none, none⟩, 10), .ok ([], 10), .ok ([], 10), .ok (⟨none, none⟩, 10), .ok ([], 5), 7⟩ (create_job "a1" "https://apps.apple.com/us/app/x/id1" "1" .ios ⟨500, none, "v1"⟩ "h" 0) ⟨none, none⟩ [] [] ⟨none, none⟩ [] 10 10 10 10 5 rfl (by decide) rfl rfl rfl rfl (by decide) rfl]
        rfl)

/-! ### Issue batch merge (C6) -/

open IssuePipeline

theorem lookup_map_replace_self {β : Type} (m : List (String × β)) (name : String)
    (x : β) :
    ((m.map fun kv => if kv.1 = name then (name, x) else kv).lookup name)
      = (m.lookup name).map fun _ => x := by
  induction m with
  | nil => rfl
  | cons kv rest ih =>
    obtain ⟨k, v⟩ := kv
    by_cases hk : k = name
    · subst hk
      simp [List.lookup_cons, ih]
    · simp [List.lookup_cons, hk, beq_false_of_ne (Ne.symm hk), ih]

theorem lookup_map_replace_ne {β : Type} (m : List (String × β)) (name key : String)
    (x : β) (h : name ≠ key) :
    ((m.map fun kv => if kv.1 = name then (name, x) else kv).lookup key)
      = m.lookup key := by
  induction m with
  | nil => rfl
  | cons kv rest ih =>
    obtain ⟨k, v⟩ := kv
    by_cases hk : k = name
    · subst hk
      simp [List.lookup_cons, beq_false_of_ne (Ne.symm h), ih]
    · simp only [List.map_cons, if_neg (by simpa using hk)]
      by_cases hke : key = k
      · subst hke
        simp [List.lookup_cons]
      · simp [List.lookup_cons, beq_false_of_ne hke, ih]

theorem lookup_append_single_self {β : Type} (m : List (String × β)) (key : String)
    (v : β) :
    ((m ++ [(key, v)]).lookup key) = some ((m.lookup key).getD v) := by
  induction m with
  | nil => simp [List.lookup_cons]
  | cons kv rest ih =>
    obtain ⟨k, w⟩ := kv
    by_cases hke : key = k
    · subst hke
      simp [List.lookup_cons]
    · simp [List.lookup_cons, beq_false_of_ne hke, ih]

theorem lookup_append_single_ne {β : Type} (m : List (String × β)) (k key : String)
    (v : β) (h : k ≠ key) :
    ((m ++ [(k, v)]).lookup key) = m.lookup key := by
  induction m with
  | nil => simp [List.lookup_cons, beq_false_of_ne (Ne.symm h)]
  | cons kv rest ih =>
    obtain ⟨k2, w⟩ := kv
    by_cases hke : key = k2
    · subst hke
      simp [List.lookup_cons]
    · simp [List.lookup_cons, beq_false_of_ne hke, ih]

theorem mergeRun_some (key : String) (acc : MergedIssue) (l : List IssueItem) :
    mergeRun key (some acc) l = some (l.foldl mergeInto acc) := by
  induction l generalizing acc with
  | nil => rfl
  | cons it rest ih => rw [List.foldl_cons, ← ih]; rfl

theorem lookup_foldl_issueStep (l : List IssueItem)
    (m : List (String × MergedIssue)) (key : String) (hkey : key ≠ "") :
    ((l.foldl issueStep m).lookup key)
      = mergeRun key (m.lookup key) (l.filter fun it => issueKey it = key) := by
  induction l generalizing m with
  | nil =>
    simp only [List.foldl_nil, List.filter_nil]
    cases List.lookup key m <;> rfl
  | cons it rest ih =>
    rw [List.foldl_cons, ih (issueStep m it)]
    by_cases hit : issueKey it = key
    · rw [List.filter_cons_of_pos (by simpa using hit)]
      cases hcur : List.lookup key m with
      | some cur =>
        have hstep : List.lookup key (issueStep m it) = some (mergeInto cur it) := by
          unfold issueStep
          dsimp only
          rw [hit, if_neg hkey, hcur]
          show List.lookup key (List.map (fun kv => if kv.1 = key then (key, mergeInto cur it) else kv) m) = _
          rw [lookup_map_replace_self, hcur]
          rfl
        rw [hstep]
        rfl
      | none =>
        have hstep : List.lookup key (issueStep m it) = some (newEntry key it) := by
          unfold issueStep
          dsimp only
          rw [hit, if_neg hkey, hcur]
          show List.lookup key (m ++ [(key, newEntry key it)]) = _
          rw [lookup_append_single_self, hcur]
          rfl
        rw [hstep]
        rfl
    · rw [List.filter_cons_of_neg (by simpa using hit)]
      have hstep : List.lookup key (issueStep m it) = List.lookup key m := by
        unfold issueStep
        dsimp only
        by_cases hname : issueKey it = ""
        · rw [hname, if_pos rfl]
        · rw [if_neg hname]
          cases hcur : List.lookup (issueKey it) m with
          | some cur =>
            show List.lookup key (List.map (fun kv => if kv.1 = issueKey it then (issueKey it, mergeInto cur it) else kv) m) = _
            rw [lookup_map_replace_ne _ _ _ _ hit]
          | none =>
            show List.lookup key (m ++ [(issueKey it, newEntry (issueKey it) it)]) = _
            rw [lookup_append_single_ne _ _ _ _ hit]
      rw [hstep]

theorem mergeInto_frequency (cur : MergedIssue) (it : IssueItem) :
    (mergeInto cur it).frequency = cur.frequency + it.frequency.getD 1 := by
  unfold mergeInto
  simp only []
  split <;> rfl

theorem mergeInto_severity_level (cur : MergedIssue) (it : IssueItem) :
    severity_level (mergeInto cur it).severity
      = max (severity_level cur.severity) (severity_level (it.severity.getD "low")) := by
  unfold mergeInto
  simp only []
  split
  · next h => exact (Nat.max_eq_right (Nat.le_of_lt h)).symm
  · next h => exact (Nat.max_eq_left (Nat.not_lt.mp h)).symm

theorem mergeInto_severity_cases (cur : MergedIssue) (it : IssueItem) :
    (mergeInto cur it).severity = cur.severity
      ∨ (mergeInto cur it).severity = it.severity.getD "low" := by
  unfold mergeInto
  simp only []
  split
  · right; rfl
  · left; rfl

theorem foldl_mergeInto_frequency (l : List IssueItem) (acc : MergedIssue) :
    (l.foldl mergeInto acc).frequency
      = acc.frequency + (l.map fun it => it.frequency.getD 1).sum := by
  induction l generalizing acc with
  | nil => simp
  | cons it rest ih =>
    rw [List.foldl_cons, ih, mergeInto_frequency, List.map_cons, List.sum_cons]
    ring

theorem foldl_mergeInto_severity_level (l : List IssueItem) (acc : MergedIssue) :
    severity_level (l.foldl mergeInto acc).severity
      = (l.map fun it => severity_level (it.severity.getD "low")).foldl max
          (severity_level acc.severity) := by
  induction l generalizing acc with
  | nil => rfl
  | cons it rest ih =>
    rw [List.foldl_cons, ih, mergeInto_severity_level, List.map_cons, List.foldl_cons]

theorem foldl_mergeInto_severity_mem (l : List IssueItem) (acc : MergedIssue) :
    (l.foldl mergeInto acc).severity = acc.severity
      ∨ ∃ it ∈ l, it.severity.getD "low" = (l.foldl mergeInto acc).severity := by
  induction l generalizing acc with
  | nil => exact .inl rfl
  | cons it rest ih =>
    rw [List.foldl_cons]
    rcases ih (mergeInto acc it) with heq | ⟨it', hmem, heq⟩
    · rcases mergeInto_severity_cases acc it with hcase | hcase
      · exact .inl (heq.trans hcase)
      · exact .inr ⟨it, List.mem_cons_self .., by rw [heq, hcase]⟩
    · exact .inr ⟨it', List.mem_cons_of_mem _ hmem, heq⟩

/-- C6: the issues pass merges batch-level items by lowercased, stripped
issue name; for every collection of items whose duplicates under a key
carry explicit valid severities, the merged entry's frequency is the sum
of the duplicates' frequencies (with 1 for a missing count) and its
severity is one of the duplicates' severities realizing the maximum
severity level under low < medium < high. -/
theorem c6_issue_merge_rule (l : List IssueItem) (key : String) (hkey : key ≠ "")
    (hmem : ∃ it ∈ l, issueKey it = key)
    (hsev : ∀ it ∈ l, issueKey it = key →
      ∃ str ∈ (["low", "medium", "high"] : List String), it.severity = some str) :
    ∃ m, ((mergeIssues l).lookup key) = some m
      ∧ m.frequency = ((l.filter fun it => issueKey it = key).map
          fun it => it.frequency.getD 1).sum
      ∧ severity_level m.severity = ((l.filter fun it => issueKey it = key).map
          fun it => severity_level (it.severity.getD "low")).foldl max 0
      ∧ ∃ it ∈ l, issueKey it = key ∧ it.severity = some m.severity := by
  have hbase : ((mergeIssues l).lookup key)
      = mergeRun key none (l.filter fun it => issueKey it = key) := by
    unfold mergeIssues
    rw [lookup_foldl_issueStep l [] key hkey]
    rfl
  obtain ⟨it0, hmem0, hkey0⟩ := hmem
  have hne : (l.filter fun it => issueKey it = key) ≠ [] := by
    intro hnil
    have : it0 ∈ l.filter fun it => issueKey it = key :=
      List.mem_filter.mpr ⟨hmem0, by simpa using hkey0⟩
    rw [hnil] at this
    cases this
  obtain ⟨itf, restf, hfe⟩ := List.exists_cons_of_ne_nil hne
  have hfmem : ∀ it ∈ (l.filter fun i => issueKey i = key), it ∈ l ∧ issueKey it = key := by
    intro it hmemf
    have := List.mem_filter.mp hmemf
    exact ⟨this.1, by simpa using this.2⟩
  have hitf := hfmem itf (hfe ▸ List.mem_cons_self ..)
  obtain ⟨sf, hsfmem, hsf⟩ := hsev itf hitf.1 hitf.2
  have hnew_sev : (newEntry key itf).severity = itf.severity.getD "low" := by
    unfold newEntry
    rw [hsf]
    rfl
  refine ⟨restf.foldl mergeInto (newEntry key itf), ?_, ?_, ?_, ?_⟩
  · rw [hbase, hfe]
    show mergeRun key (some (newEntry key itf)) restf = _
    exact mergeRun_some ..
  · rw [hfe, foldl_mergeInto_frequency, List.map_cons, List.sum_cons]
    rfl
  · rw [hfe, foldl_mergeInto_severity_level, List.map_cons, List.foldl_cons,
      Nat.zero_max, hnew_sev]
  · rcases foldl_mergeInto_severity_mem restf (newEntry key itf) with heq | ⟨it', hm', he'⟩
    · refine ⟨itf, hitf.1, hitf.2, ?_⟩
      rw [heq, hnew_sev, hsf]
      rfl
    · have hm'' := hfmem it' (hfe ▸ List.mem_cons_of_mem _ hm')
      obtain ⟨s', hs'mem, hs'⟩ := hsev it' hm''.1 hm''.2
      refine ⟨it', hm''.1, hm''.2, ?_⟩
      rw [← he', hs']
      rfl

/-- Witness for C6: the spec's example — two `"login fails"` items with
frequency 5 / severity medium and frequency 3 / severity high merge into
frequency 8 / severity high. -/
theorem c6_issue_merge_rule_witness :
    ("login fails" : String) ≠ ""
    ∧ (∃ it ∈ ([⟨some "login fails", some 5, some "medium", none⟩,
        ⟨some "login fails", some 3, some "high", none⟩] : List IssueItem),
        issueKey it = "login fails")
    ∧ (∀ it ∈ ([⟨some "login fails", some 5, some "medium", none⟩,
        ⟨some "login fails", some 3, some "high", none⟩] : List IssueItem),
        issueKey it = "login fails" →
        ∃ str ∈ (["low", "medium", "high"] : List String), it.severity = some str)
    ∧ (∃ m, ((mergeIssues [⟨some "login fails", some 5, some "medium", none⟩,
          ⟨some "login fails", some 3, some "high", none⟩]).lookup "login fails") = some m
        ∧ m.frequency = ((([⟨some "login fails", some 5, some "medium", none⟩,
            ⟨some "login fails", some 3, some "high", none⟩] : List IssueItem).filter
              fun it => issueKey it = "login fails").map
            fun it => it.frequency.getD 1).sum
        ∧ severity_level m.severity
            = ((([⟨some "login fails", some 5, some "medium", none⟩,
              ⟨some "login fails", some 3, some "high", none⟩] : List IssueItem).filter
                fun it => issueKey it = "login fails").map
              fun it => severity_level (it.severity.getD "low")).foldl max 0
        ∧ ∃ it ∈ ([⟨some "login fails", some 5, some "medium", none⟩,
            ⟨some "login fails", some 3, some "high", none⟩] : List IssueItem),
            issueKey it = "login fails" ∧ it.severity = some m.severity)
    ∧ mergeIssues [⟨some "login fails", some 5, some "medium", none⟩,
        ⟨some "login fails", some 3, some "high", none⟩]
        = [("login fails", ⟨"login fails", 8, "high", "other"⟩)] :=
  ⟨by decide, by decide, by decide,
   c6_issue_merge_rule _ "login fails" (by decide) (by decide) (by decide),
   by decide⟩

/-! ### Content hash (C7) -/

theorem digitChar_sub (d : Nat) (h : d < 10) : (Nat.digitChar d).toNat - 48 = d := by
  interval_cases d <;> rfl

theorem decVal_append_digit (l : List Char) (c : Char) :
    decVal (l ++ [c]) = 10 * decVal l + (c.toNat - 48) := by
  unfold decVal
  rw [List.foldl_append]
  rfl

theorem decVal_decDigitsAux (fuel n : Nat) (h : n < fuel) :
    decVal (decDigitsAux fuel n) = n := by
  induction fuel generalizing n with
  | zero => omega
  | succ f ih =>
    show decVal (if n < 10 then [Nat.digitChar n]
      else decDigitsAux f (n / 10) ++ [Nat.digitChar (n % 10)]) = n
    by_cases h10 : n < 10
    · rw [if_pos h10]
      show 10 * 0 + ((Nat.digitChar n).toNat - 48) = n
      rw [digitChar_sub n h10]
      omega
    · rw [if_neg h10, decVal_append_digit, ih (n / 10) (by omega),
        digitChar_sub (n % 10) (by omega)]
      omega

theorem decVal_decDigits (n : Nat) : decVal (decDigits n) = n :=
  decVal_decDigitsAux (n + 1) n (Nat.lt_succ_self n)

theorem decRepr_injective : Function.Injective decRepr := by
  intro a b h
  have hd : decDigits a = decDigits b := congrArg String.data h
  have hv := congrArg decVal hd
  rwa [decVal_decDigits a, decVal_decDigits b] at hv

theorem str_append_left_cancel {c a b : String} (h : c ++ a = c ++ b) : a = b := by
  apply String.ext
  have h2 := congrArg String.data h
  rw [String.data_append c a, String.data_append c b] at h2
  exact List.append_cancel_left h2

theorem str_append_right_cancel {c a b : String} (h : a ++ c = b ++ c) : a = b := by
  apply String.ext
  have h2 := congrArg String.data h
  rw [String.data_append a c, String.data_append b c] at h2
  exact List.append_cancel_right h2

set_option maxHeartbeats 1000000 in
theorem generate_request_hash_data_length (r : HashedRequest) :
    (generate_request_hash r).data.length ≤ 32 := by
  show ((sha256hex (requestData r)).data.take 32).length ≤ 32
  rw [List.length_take]
  exact Nat.min_le_left ..

theorem localeStr_inj (o1 o2 : Option String) (h : localeStr o1 = localeStr o2)
    (h1 : ¬(o1 = none ∧ o2 = some "None"))
    (h2 : ¬(o1 = some "None" ∧ o2 = none)) : o1 = o2 := by
  cases o1 with
  | none =>
    cases o2 with
    | none => rfl
    | some s2 =>
      have hs : s2 = "None" := by simpa [localeStr] using h.symm
      exact absurd ⟨rfl, by rw [hs]⟩ h1
  | some s1 =>
    cases o2 with
    | none =>
      have hs : s1 = "None" := by simpa [localeStr] using h
      exact absurd ⟨by rw [hs], rfl⟩ h2
    | some s2 =>
      have hs : s1 = s2 := by simpa [localeStr] using h
      rw [hs]

/-- C7 (amended): two submissions agreeing on all four hashed fields get
the same content hash; two submissions that differ in exactly one field
get different pre-hash encodings (hash inputs) — except that a `None`
locale and the literal locale string `"None"` encode identically.
Distinct hash inputs yield distinct digests only up to truncated-SHA-256
collisions, which is why the conclusion is about the hash input. -/
theorem c7_request_hash_fields (r1 r2 : HashedRequest) :
    (r1.app_url = r2.app_url ∧ r1.review_limit = r2.review_limit
        ∧ r1.locale = r2.locale ∧ r1.analysis_version = r2.analysis_version →
      generate_request_hash r1 = generate_request_hash r2)
    ∧ (((r1.app_url ≠ r2.app_url ∧ r1.review_limit = r2.review_limit
          ∧ r1.locale = r2.locale ∧ r1.analysis_version = r2.analysis_version)
        ∨ (r1.app_url = r2.app_url ∧ r1.review_limit ≠ r2.review_limit
          ∧ r1.locale = r2.locale ∧ r1.analysis_version = r2.analysis_version)
        ∨ (r1.app_url = r2.app_url ∧ r1.review_limit = r2.review_limit
          ∧ r1.locale ≠ r2.locale ∧ ¬(r1.locale = none ∧ r2.locale = some "None")
          ∧ ¬(r1.locale = some "None" ∧ r2.locale = none)
          ∧ r1.analysis_version = r2.analysis_version)
        ∨ (r1.app_url = r2.app_url ∧ r1.review_limit = r2.review_limit
          ∧ r1.locale = r2.locale ∧ r1.analysis_version ≠ r2.analysis_version)) →
      requestData r1 ≠ requestData r2) := by
  obtain ⟨u1, l1, o1, v1⟩ := r1
  obtain ⟨u2, l2, o2, v2⟩ := r2
  constructor
  · rintro ⟨h1, h2, h3, h4⟩
    dsimp only at h1 h2 h3 h4
    subst h1; subst h2; subst h3; subst h4
    rfl
  · rintro (⟨hd, h2, h3, h4⟩ | ⟨h1, hd, h3, h4⟩ | ⟨h1, h2, hd, hn1, hn2, h4⟩
      | ⟨h1, h2, h3, hd⟩) heq <;>
      dsimp only at * <;>
      unfold requestData at heq <;>
      dsimp only at heq <;>
      simp only [String.append_assoc] at heq
    · subst h2; subst h3; subst h4
      exact hd (str_append_right_cancel heq)
    · subst h1; subst h3; subst h4
      have heq2 := str_append_left_cancel (str_append_left_cancel heq)
      exact hd (decRepr_injective (str_append_right_cancel heq2))
    · subst h1; subst h2; subst h4
      have heq2 := str_append_left_cancel (str_append_left_cancel
        (str_append_left_cancel (str_append_left_cancel heq)))
      exact hd (localeStr_inj o1 o2 (str_append_right_cancel heq2) hn1 hn2)
    · subst h1; subst h2; subst h3
      have heq2 := str_append_left_cancel (str_append_left_cancel
        (str_append_left_cancel (str_append_left_cancel
          (str_append_left_cancel (str_append_left_cancel heq)))))
      exact hd heq2

/-- Witness for C7: a pair differing only in the review limit has
different hash inputs, and an identical pair hashes identically. -/
theorem c7_request_hash_fields_witness :
    (("https://apps.apple.com/us/app/x/id1" : String)
        = "https://apps.apple.com/us/app/x/id1"
      ∧ (5 : Nat) ≠ 6 ∧ (none : Option String) = none ∧ ("v1" : String) = "v1")
    ∧ requestData ⟨"https://apps.apple.com/us/app/x/id1", 5, none, "v1"⟩
        ≠ requestData ⟨"https://apps.apple.com/us/app/x/id1", 6, none, "v1"⟩
    ∧ generate_request_hash ⟨"https://apps.apple.com/us/app/x/id1", 5, none, "v1"⟩
        = generate_request_hash ⟨"https://apps.apple.com/us/app/x/id1", 5, none, "v1"⟩ :=
  ⟨⟨rfl, by decide, rfl, rfl⟩,
   (c7_request_hash_fields ⟨"https://apps.apple.com/us/app/x/id1", 5, none, "v1"⟩
       ⟨"https://apps.apple.com/us/app/x/id1", 6, none, "v1"⟩).2
     (Or.inr (Or.inl ⟨rfl, by decide, rfl, rfl⟩)),
   (c7_request_hash_fields ⟨"https://apps.apple.com/us/app/x/id1", 5, none, "v1"⟩
       ⟨"https://apps.apple.com/us/app/x/id1", 5, none, "v1"⟩).1
     ⟨rfl, rfl, rfl, rfl⟩⟩

theorem exists_string_collision (f : Nat → String)
    (hlen : ∀ k, (f k).data.length ≤ 32) :
    ∃ m n : Nat, m ≠ n ∧ f m = f n := by
  haveI hfin : Finite {l : List Char // l.length ≤ 32} :=
    (List.finite_length_le Char 32).to_subtype
  obtain ⟨m, n, hmn, heq⟩ := Finite.exists_ne_map_eq_of_infinite
    (fun k : Nat => (⟨(f k).data, hlen k⟩ : {l : List Char // l.length ≤ 32}))
  exact ⟨m, n, hmn, String.ext (congrArg Subtype.val heq)⟩

/-- C7 counterexample: the digest is truncated to 32 hex characters, so
by pigeonhole there exist two submissions that differ only in the
(unvalidated) analysis version yet receive the same content hash — the
claim "differing in any one field produces different hashes" is false. -/
theorem c7_single_field_hash_collision :
    ∃ r1 r2 : HashedRequest,
      r1.app_url = r2.app_url ∧ r1.review_limit = r2.review_limit
      ∧ r1.locale = r2.locale ∧ r1.analysis_version ≠ r2.analysis_version
      ∧ generate_request_hash r1 = generate_request_hash r2 := by
  obtain ⟨m, n, hmn, heq⟩ := exists_string_collision
    (fun k => generate_request_hash ⟨"https://apps.apple.com/us/app/x/id1", 500, none,
      ⟨List.replicate k 'a'⟩⟩)
    (fun k => generate_request_hash_data_length _)
  refine ⟨⟨"https://apps.apple.com/us/app/x/id1", 500, none, ⟨List.replicate m 'a'⟩⟩,
    ⟨"https://apps.apple.com/us/app/x/id1", 500, none, ⟨List.replicate n 'a'⟩⟩,
    rfl, rfl, rfl, ?_, heq⟩
  intro hv
  apply hmn
  have hd : List.replicate m 'a' = List.replicate n 'a' := congrArg String.data hv
  have hlen2 := congrArg List.length hd
  simpa [List.length_replicate] using hlen2

/-- C2 counterexample: on the all-zero breakdown the `total > 0` guard
skips normalization and the output sums to 0, not 100 (±0.1). -/
theorem c2_zero_total_not_normalized :
    (InsightAggregator.build_sentiment_breakdown ⟨some ⟨some 0, some 0, some 0⟩, none⟩).positive
      + (InsightAggregator.build_sentiment_breakdown ⟨some ⟨some 0, some 0, some 0⟩, none⟩).neutral
      + (InsightAggregator.build_sentiment_breakdown ⟨some ⟨some 0, some 0, some 0⟩, none⟩).negative = 0
    ∧ ¬ |(InsightAggregator.build_sentiment_breakdown ⟨some ⟨some 0, some 0, some 0⟩, none⟩).positive
        + (InsightAggregator.build_sentiment_breakdown ⟨some ⟨some 0, some 0, some 0⟩, none⟩).neutral
        + (InsightAggregator.build_sentiment_breakdown ⟨some ⟨some 0, some 0, some 0⟩, none⟩).negative
        - 100| ≤ 1/10 := by
  constructor
  · norm_num [InsightAggregator.build_sentiment_breakdown]
  · norm_num [InsightAggregator.build_sentiment_breakdown]


/-! ### In-memory fallback cache (C10) -/

theorem memGet_memSet_self (d : List (String × String)) (key value : String)
    (ex : Option Nat) : memGet (memSet d key value ex) key = some value := by
  unfold memSet memGet
  by_cases h : (List.lookup key d).isSome
  · rw [if_pos h]
    obtain ⟨cur, hcur⟩ := Option.isSome_iff_exists.mp h
    rw [lookup_map_replace_self, hcur]
    rfl
  · rw [if_neg h]
    rw [lookup_append_single_self, Option.not_isSome_iff_eq_none.mp h]
    rfl

theorem memGet_memSet_ne (d : List (String × String)) (k key value : String)
    (ex : Option Nat) (h : k ≠ key) :
    memGet (memSet d k value ex) key = memGet d key := by
  unfold memSet memGet
  by_cases hs : (List.lookup k d).isSome
  · rw [if_pos hs, lookup_map_replace_ne _ _ _ _ h]
  · rw [if_neg hs, lookup_append_single_ne _ _ _ _ h]

theorem memGet_memDelete_ne (d : List (String × String)) (k key : String)
    (h : k ≠ key) : memGet (memDelete d k) key = memGet d key := by
  unfold memDelete memGet
  induction d with
  | nil => rfl
  | cons kv rest ih =>
    obtain ⟨k2, v2⟩ := kv
    by_cases h2 : k2 = k
    · subst h2
      rw [List.filter_cons_of_neg (by simp)]
      rw [ih]
      rw [List.lookup_cons, beq_false_of_ne (Ne.symm h)]
    · rw [List.filter_cons_of_pos (by simpa using h2)]
      by_cases hke : key = k2
      · subst hke
        simp [List.lookup_cons]
      · rw [List.lookup_cons, List.lookup_cons, beq_false_of_ne hke, ih]

theorem memGet_applyOps (d : List (String × String)) (ops : List CacheOp)
    (key : String) (hops : ∀ op ∈ ops, CacheOp.key op ≠ key) :
    memGet (applyOps d ops) key = memGet d key := by
  induction ops generalizing d with
  | nil => rfl
  | cons op rest ih =>
    show memGet (applyOps (applyOp d op) rest) key = memGet d key
    rw [ih (applyOp d op) fun o ho => hops o (List.mem_cons_of_mem _ ho)]
    cases op with
    | setOp k v e => exact memGet_memSet_ne d k key v e (hops _ (List.mem_cons_self ..))
    | delOp k => exact memGet_memDelete_ne d k key (hops _ (List.mem_cons_self ..))

/-- C10: with the in-process fallback backend, the TTL argument of
`set_json` is discarded (any two TTLs give the same store), and a later
`get_json` — after any sequence of operations on other keys, i.e. no
matter how much activity (time) has passed — still returns the stored
value: fallback entries never expire. -/
theorem c10_fallback_ttl_ignored {J : Type} (dumps : J → String)
    (loads : String → Option J) (d : List (String × String)) (key : String)
    (v : J) (ttl ttl2 : Option Nat) (ops : List CacheOp)
    (hrt : loads (dumps v) = some v) (hne : dumps v ≠ "")
    (hops : ∀ op ∈ ops, CacheOp.key op ≠ key) :
    set_json dumps d key v ttl = set_json dumps d key v ttl2
    ∧ get_json loads (applyOps (set_json dumps d key v ttl) ops) key = some v := by
  constructor
  · cases ttl <;> cases ttl2 <;> rfl
  · unfold get_json
    rw [show set_json dumps d key v ttl = memSet d key (dumps v) ttl from rfl]
    rw [memGet_applyOps _ _ _ hops, memGet_memSet_self]
    show (if dumps v = "" then none else loads (dumps v)) = some v
    rw [if_neg hne]
    exact hrt

/-- Witness for C10: a concrete write through the fallback with TTL 3600
versus no TTL, followed by operations on other keys. -/
theorem c10_fallback_ttl_ignored_witness :
    ((fun s => if s = decRepr 7 then some 7 else none : String → Option Nat)
        (decRepr 7) = some 7)
    ∧ decRepr 7 ≠ ""
    ∧ (∀ op ∈ ([.setOp "job:a2" "{}" (some 60), .delOp "hash:zzz"] : List CacheOp),
        CacheOp.key op ≠ "job:a1")
    ∧ set_json decRepr [] "job:a1" 7 (some 3600) = set_json decRepr [] "job:a1" 7 none
    ∧ get_json (fun s => if s = decRepr 7 then some 7 else none)
        (applyOps (set_json decRepr [] "job:a1" 7 (some 3600))
          [.setOp "job:a2" "{}" (some 60), .delOp "hash:zzz"]) "job:a1" = some 7 := by
  have h := c10_fallback_ttl_ignored decRepr
    (fun s => if s = decRepr 7 then some 7 else none) [] "job:a1" 7 (some 3600) none
    [.setOp "job:a2" "{}" (some 60), .delOp "hash:zzz"]
    (by decide) (by decide) (by decide)
  exact ⟨by decide, by decide, by decide, h.1, h.2⟩

end AppReviewer
